import Mathlib

/-
Verification development for the move-generation core of the bitris library
(`src/moves.rs` facade over the internal `moves64` search).

The facade (`Drop`, `MoveRules`, `generate_all_moves`, `generate_minimized_moves`)
is translated directly from `src/moves.rs`.  The internal search engine
(`moves64`), the board, the piece catalog and the SRS kick table are not part of
the provided sources; they are modelled from the specification:
  - nodes are placements (orientation, reference coordinate);
  - edges are shift left/right, kick-resolved rotations, one-cell soft drop
    (Softdrop only) and instantaneous hard drop (Harddrop only);
  - the explorer is a breadth-first traversal from spawn with a visited set,
    emitting terminal (resting) placements;
  - the reducer either returns all terminal placements in discovery order or
    keeps the first-discovered representative of each occupied-cell footprint.
Termination of the traversal is represented by an explicit fuel parameter: the
search returns `some result` when the queue empties within the fuel (the spec
guarantees the state space is finite, so a completed run models the real code),
and `none` when the fuel is exhausted first.
-/

set_option maxHeartbeats 4000000
set_option maxRecDepth 10000

namespace Bitris

/-- Piece orientations.  Modelled from the spec: an index into a piece's cyclic
set of four rotation states (the piece/orientation catalog is external to
`src/moves.rs`). -/
inductive Orientation where
| North
| East
| South
| West
deriving DecidableEq

/-- Clockwise step in the cyclic orientation order. -/
def Orientation.cw : Orientation → Orientation
| North => East
| East => South
| South => West
| West => North

/-- Counterclockwise step in the cyclic orientation order. -/
def Orientation.ccw : Orientation → Orientation
| North => West
| West => South
| South => East
| East => North

/-- Rotation directions.  Modelled from the spec: the canonical transitions
between orientations resolved through the rotation system's kick table. -/
inductive Rotation where
| Cw
| Ccw
deriving DecidableEq

/-- The orientation reached by applying a rotation. -/
def Rotation.apply : Rotation → Orientation → Orientation
| Cw, o => o.cw
| Ccw, o => o.ccw

/-- A collection of piece drop types (from `src/moves.rs`, `enum Drop`). -/
inductive Drop where
| Softdrop
| Harddrop
deriving DecidableEq

/-- In `src/moves.rs` the variant `Softdrop` carries the `#[default]`
attribute. -/
instance : Inhabited Drop := ⟨Drop.Softdrop⟩

/-- A placement: the piece type is fixed for a whole search, so a placement is
an orientation together with the reference coordinate of the piece's rotation
box (spec, section 3).  `x`, `y` grow rightward and upward. -/
structure Placement where
  orientation : Orientation
  x : Int
  y : Int
deriving DecidableEq

/-- Board snapshot.  Modelled from the spec: an immutable occupancy bitmap over
a fixed-width, bounded-height field (the `Board64` bitboard is external to
`src/moves.rs`). -/
structure Board where
  width : Nat
  height : Nat
  occupied : Int → Int → Bool

/-- All context a single search needs: the board, the piece catalog entry
(relative cells per orientation) and the rotation system's kick table. -/
structure GameConfig where
  width : Nat
  height : Nat
  occupied : Int → Int → Bool
  cells : Orientation → List (Int × Int)
  kicks : Orientation → Rotation → List (Int × Int)

/-- Bundle a board, a piece catalog entry and a rotation system. -/
def mkConfig (board : Board) (shape : Orientation → List (Int × Int))
    (rs : Orientation → Rotation → List (Int × Int)) : GameConfig :=
  { width := board.width, height := board.height, occupied := board.occupied,
    cells := shape, kicks := rs }

/-- The absolute cells a placement occupies (its footprint, as a list). -/
def absCells (cfg : GameConfig) (p : Placement) : List (Int × Int) :=
  (cfg.cells p.orientation).map fun c => (p.x + c.1, p.y + c.2)

/-- Collision test, modelled from the spec: every cell of the footprint is
inside the field and unoccupied. -/
def canPlace (cfg : GameConfig) (p : Placement) : Bool :=
  (absCells cfg p).all fun c =>
    decide (0 ≤ c.1) && decide (c.1 < (cfg.width : Int)) &&
    decide (0 ≤ c.2) && decide (c.2 < (cfg.height : Int)) &&
    !(cfg.occupied c.1 c.2)

/-- One-cell downward translation. -/
def down (p : Placement) : Placement := { p with y := p.y - 1 }

/-- Downward translation by `n` cells. -/
def downN (n : Nat) (p : Placement) : Placement := { p with y := p.y - n }

/-- One-cell leftward translation. -/
def shiftLeft (p : Placement) : Placement := { p with x := p.x - 1 }

/-- One-cell rightward translation. -/
def shiftRight (p : Placement) : Placement := { p with x := p.x + 1 }

/-- Try the kick candidates in order; the first in-bounds, collision-free
result wins (spec, section 4.1). -/
def tryKicks (cfg : GameConfig) (o : Orientation) (p : Placement) :
    List (Int × Int) → Option Placement
| [] => none
| k :: ks =>
  let q : Placement := ⟨o, p.x + k.1, p.y + k.2⟩
  if canPlace cfg q then some q else tryKicks cfg o p ks

/-- Kick-resolved rotation: advance the orientation and resolve the reference
coordinate through the rotation system's ordered kick candidates; `none` when
no candidate succeeds (the rotation edge does not exist). -/
def rotateBy (cfg : GameConfig) (r : Rotation) (p : Placement) : Option Placement :=
  tryKicks cfg (r.apply p.orientation) p (cfg.kicks p.orientation r)

/-- View an optional placement as a zero- or one-element list of successors. -/
def optionToList : Option Placement → List Placement
| none => []
| some q => [q]

/-- Successors available without vertical movement: shifts and kick-resolved
rotations (the whole edge set of the Harddrop airborne subgraph). -/
def airborneNeighbors (cfg : GameConfig) (p : Placement) : List Placement :=
  (if canPlace cfg (shiftLeft p) then [shiftLeft p] else []) ++
  (if canPlace cfg (shiftRight p) then [shiftRight p] else []) ++
  optionToList (rotateBy cfg Rotation.Cw p) ++
  optionToList (rotateBy cfg Rotation.Ccw p)

/-- Successors under the Softdrop discipline: the airborne edges plus the
one-cell soft drop. -/
def softdropNeighbors (cfg : GameConfig) (p : Placement) : List Placement :=
  airborneNeighbors cfg p ++ (if canPlace cfg (down p) then [down p] else [])

/-- Descend one cell at a time while the cell below is free, for at most `n`
steps. -/
def hardDropAux (cfg : GameConfig) : Nat → Placement → Placement
| 0, p => p
| n + 1, p => if canPlace cfg (down p) then hardDropAux cfg n (down p) else p

/-- Instantaneous fall to rest.  A valid placement can descend fewer than
`cfg.height` rows, so this fuel always suffices. -/
def hardDrop (cfg : GameConfig) (p : Placement) : Placement :=
  hardDropAux cfg cfg.height p

/-- Append, in order, the members of a list that are in neither `visited` nor
the accumulator (the newly discovered nodes of one expansion step). -/
def pushNews (visited : List Placement) : List Placement → List Placement → List Placement
| acc, [] => acc
| acc, x :: xs =>
  if x ∈ visited ∨ x ∈ acc then pushNews visited acc xs
  else pushNews visited (acc ++ [x]) xs

/-- Breadth-first traversal with a visited set, modelled from the spec.
`visited` is kept in discovery order and always contains every queued node.
Returns the completed visited list, or `none` if the fuel ran out before the
queue emptied. -/
def bfsAux (nb : Placement → List Placement) :
    Nat → List Placement → List Placement → Option (List Placement)
| _, visited, [] => some visited
| 0, _, _ :: _ => none
| fuel + 1, visited, q :: qs =>
  let news := pushNews visited [] (nb q)
  bfsAux nb fuel (visited ++ news) (qs ++ news)

/-- Keep the first occurrence of each element, preserving order. -/
def collectDistinct : List Placement → List Placement → List Placement
| acc, [] => acc
| acc, x :: xs =>
  if x ∈ acc then collectDistinct acc xs else collectDistinct (acc ++ [x]) xs

/-- Two placements occupy the same absolute cell set (footprint equivalence,
independent of the orientation label). -/
def sameFootprint (cfg : GameConfig) (p q : Placement) : Bool :=
  ((absCells cfg p).all fun c => decide (c ∈ absCells cfg q)) &&
  ((absCells cfg q).all fun c => decide (c ∈ absCells cfg p))

/-- Result reducer, minimized mode (spec, section 4.2): keep one representative
per footprint, namely the first-discovered placement of each footprint class. -/
def minimizedFrom (cfg : GameConfig) : List Placement → List Placement → List Placement
| acc, [] => acc
| acc, x :: xs =>
  if acc.any fun q => sameFootprint cfg q x then minimizedFrom cfg acc xs
  else minimizedFrom cfg (acc ++ [x]) xs

/-- Modelled from the spec: `moves64::all_moves_softdrop`.  Explore the full
graph (shift, rotate, one-cell drop) breadth-first from spawn and emit the
visited placements that cannot drop one more cell.  A colliding spawn is a
contract violation; the search then visits nothing and returns the empty
list. -/
def all_moves_softdrop (cfg : GameConfig) (spawn : Placement) (fuel : Nat) :
    Option (List Placement) :=
  if canPlace cfg spawn then
    (bfsAux (softdropNeighbors cfg) fuel [spawn] [spawn]).map
      fun visited => visited.filter fun p => !canPlace cfg (down p)
  else some []

/-- Modelled from the spec: `moves64::all_moves_harddrop`.  Explore only the
airborne subgraph (shift, rotate) breadth-first from spawn and hard-drop every
visited node once, collecting the distinct terminal placements in discovery
order. -/
def all_moves_harddrop (cfg : GameConfig) (spawn : Placement) (fuel : Nat) :
    Option (List Placement) :=
  if canPlace cfg spawn then
    (bfsAux (airborneNeighbors cfg) fuel [spawn] [spawn]).map
      fun visited => collectDistinct [] (visited.map (hardDrop cfg))
  else some []

/-- Modelled from the spec: `moves64::minimized_moves_softdrop`, the footprint
reducer applied to the Softdrop terminal set. -/
def minimized_moves_softdrop (cfg : GameConfig) (spawn : Placement) (fuel : Nat) :
    Option (List Placement) :=
  (all_moves_softdrop cfg spawn fuel).map (minimizedFrom cfg [])

/-- Modelled from the spec: `moves64::minimized_moves_harddrop`, the footprint
reducer applied to the Harddrop terminal set. -/
def minimized_moves_harddrop (cfg : GameConfig) (spawn : Placement) (fuel : Nat) :
    Option (List Placement) :=
  (all_moves_harddrop cfg spawn fuel).map (minimizedFrom cfg [])

/-- Rules to be applied during move generation (from `src/moves.rs`,
`struct MoveRules`).  A rotation system is its kick-candidate function. -/
structure MoveRules where
  rotation_system : Orientation → Rotation → List (Int × Int)
  drop : Drop

/-- From `src/moves.rs`: `MoveRules::new`. -/
def MoveRules.new (rs : Orientation → Rotation → List (Int × Int)) (drop : Drop) :
    MoveRules :=
  ⟨rs, drop⟩

/-- Modelled from the spec: the `SrsKickTable` for the J, L, S, T and Z pieces
(the concrete kick-offset table is external to `src/moves.rs`; this is the
standard SRS wall-kick data, candidates tried left to right). -/
def srsKicks : Orientation → Rotation → List (Int × Int)
| Orientation.North, Rotation.Cw => [(0, 0), (-1, 0), (-1, 1), (0, -2), (-1, -2)]
| Orientation.East, Rotation.Ccw => [(0, 0), (1, 0), (1, -1), (0, 2), (1, 2)]
| Orientation.East, Rotation.Cw => [(0, 0), (1, 0), (1, -1), (0, 2), (1, 2)]
| Orientation.South, Rotation.Ccw => [(0, 0), (-1, 0), (-1, 1), (0, -2), (-1, -2)]
| Orientation.South, Rotation.Cw => [(0, 0), (1, 0), (1, 1), (0, -2), (1, -2)]
| Orientation.West, Rotation.Ccw => [(0, 0), (-1, 0), (-1, -1), (0, 2), (-1, 2)]
| Orientation.West, Rotation.Cw => [(0, 0), (-1, 0), (-1, -1), (0, 2), (-1, 2)]
| Orientation.North, Rotation.Ccw => [(0, 0), (1, 0), (1, 1), (0, -2), (1, -2)]

/-- From `src/moves.rs`: `MoveRules::srs`. -/
def MoveRules.srs (drop : Drop) : MoveRules := ⟨srsKicks, drop⟩

/-- From `src/moves.rs`: the inherent `MoveRules::default`, defined as
`Self::srs(Drop::Softdrop)`. -/
def MoveRules.default : MoveRules := MoveRules.srs Drop.Softdrop

/-- From `src/moves.rs`: `MoveRules::generate_all_moves` dispatches on the
drop discipline to the corresponding `moves64` search. -/
def MoveRules.generate_all_moves (rules : MoveRules) (board : Board)
    (shape : Orientation → List (Int × Int)) (spawn : Placement) (fuel : Nat) :
    Option (List Placement) :=
  match rules.drop with
  | Drop.Softdrop =>
    all_moves_softdrop (mkConfig board shape rules.rotation_system) spawn fuel
  | Drop.Harddrop =>
    all_moves_harddrop (mkConfig board shape rules.rotation_system) spawn fuel

/-- From `src/moves.rs`: `MoveRules::generate_minimized_moves` dispatches on
the drop discipline to the corresponding `moves64` search. -/
def MoveRules.generate_minimized_moves (rules : MoveRules) (board : Board)
    (shape : Orientation → List (Int × Int)) (spawn : Placement) (fuel : Nat) :
    Option (List Placement) :=
  match rules.drop with
  | Drop.Softdrop =>
    minimized_moves_softdrop (mkConfig board shape rules.rotation_system) spawn fuel
  | Drop.Harddrop =>
    minimized_moves_harddrop (mkConfig board shape rules.rotation_system) spawn fuel

/-- The method call `rules.generate_all_moves(..)` as seen by the caller: it
takes the rules by shared reference (`&self`), so the call yields the result
together with the rules value it leaves behind. -/
def MoveRules.generate_all_moves_call (rules : MoveRules) (board : Board)
    (shape : Orientation → List (Int × Int)) (spawn : Placement) (fuel : Nat) :
    Option (List Placement) × MoveRules :=
  (rules.generate_all_moves board shape spawn fuel, rules)

/-- The method call `rules.generate_minimized_moves(..)` as seen by the
caller, with the rules value it leaves behind. -/
def MoveRules.generate_minimized_moves_call (rules : MoveRules) (board : Board)
    (shape : Orientation → List (Int × Int)) (spawn : Placement) (fuel : Nat) :
    Option (List Placement) × MoveRules :=
  (rules.generate_minimized_moves board shape spawn fuel, rules)

/-- Reachability along a successor-list relation: the reflexive-transitive
closure of single atomic edges. -/
inductive ReachableBy (nb : Placement → List Placement) : Placement → Placement → Prop where
| refl (p : Placement) : ReachableBy nb p p
| step {p q r : Placement} : ReachableBy nb p q → r ∈ nb q → ReachableBy nb p r

/-- The reachability contract a returned placement satisfies under the active
discipline: under Softdrop, a path of shift/rotate/soft-drop edges from spawn;
under Harddrop, a path of shift/rotate edges to some airborne node followed by
one final hard drop. -/
def reachableResult (rules : MoveRules) (board : Board)
    (shape : Orientation → List (Int × Int)) (spawn p : Placement) : Prop :=
  match rules.drop with
  | Drop.Softdrop =>
    ReachableBy (softdropNeighbors (mkConfig board shape rules.rotation_system)) spawn p
  | Drop.Harddrop =>
    ∃ q, ReachableBy (airborneNeighbors (mkConfig board shape rules.rotation_system)) spawn q ∧
      canPlace (mkConfig board shape rules.rotation_system) q = true ∧
      p = hardDrop (mkConfig board shape rules.rotation_system) q

/-- Least `y` of a list with a fallback seed. -/
def listMin : Int → List Int → Int
| d, [] => d
| d, z :: zs => listMin (min d z) zs

/-- The bottom row of a placement: the least `y` among its absolute cells
(this is the `by` field of the `BlPlacement` the Rust code returns). -/
def blY (cfg : GameConfig) (p : Placement) : Int :=
  match (absCells cfg p).map Prod.snd with
  | [] => p.y
  | z :: zs => listMin z zs

/-- Least cell x-offset of a shape in a given orientation. -/
def minXOff (shape : Orientation → List (Int × Int)) (o : Orientation) : Int :=
  match shape o with
  | [] => 0
  | c :: cs => listMin c.1 (cs.map Prod.fst)

/-- Least cell y-offset of a shape in a given orientation. -/
def minYOff (shape : Orientation → List (Int × Int)) (o : Orientation) : Int :=
  match shape o with
  | [] => 0
  | c :: cs => listMin c.2 (cs.map Prod.snd)

/-- Build the placement whose occupied cells have bottom-left corner `(bx, b)`
(the `bl(x, y)` constructor of the Rust sources). -/
def blPlacement (shape : Orientation → List (Int × Int)) (o : Orientation)
    (bx b : Int) : Placement :=
  ⟨o, bx - minXOff shape o, b - minYOff shape o⟩

/-- Modelled from the spec: the S piece of the external piece catalog, in SRS
box coordinates (each orientation's occupied cells inside its 3-by-3 rotation
box). -/
def sShape : Orientation → List (Int × Int)
| Orientation.North => [(0, 1), (1, 1), (1, 2), (2, 2)]
| Orientation.East => [(2, 0), (1, 1), (2, 1), (1, 2)]
| Orientation.South => [(0, 0), (1, 0), (1, 1), (2, 1)]
| Orientation.West => [(1, 0), (0, 1), (1, 1), (0, 2)]

/-- The reference-scenario board of the `src/moves.rs` tests: ten columns, the
listed top row (`y = 3`) filled except the two leftmost and two rightmost
columns, everything else empty (`Board64` has 64 rows). -/
def boardC1 : Board :=
  { width := 10, height := 64,
    occupied := fun x y => decide (y = 3) && decide (2 ≤ x) && decide (x ≤ 7) }

/-- The reference-scenario spawn: an S piece in north orientation with its
cells' bottom-left corner at `(4, 20)` (`piece!(SN).with(bl(4, 20))`). -/
def spawnC1 : Placement := blPlacement sShape Orientation.North 4 20

/-- The full search context of the reference scenario. -/
def cfgC1 : GameConfig := mkConfig boardC1 sShape srsKicks

/-- A tiny scenario used to witness the general theorems: a 2-wide, 3-tall
empty board, a one-cell piece and a rotation system with no kick candidates. -/
def boardT : Board := { width := 2, height := 3, occupied := fun _ _ => false }

/-- One-cell piece catalog entry for the tiny scenario. -/
def shapeT : Orientation → List (Int × Int) := fun _ => [(0, 0)]

/-- Rotation system with no kick candidates (every rotation is rejected); the
spec calls this a legal configuration. -/
def rsT : Orientation → Rotation → List (Int × Int) := fun _ _ => []

/-- Spawn of the tiny scenario: the single cell at the top-left corner. -/
def spawnT : Placement := ⟨Orientation.North, 0, 2⟩

/-- A fully occupied board, on which every spawn is a contract violation. -/
def boardFull : Board := { width := 2, height := 3, occupied := fun _ _ => true }

/-! Unfolding equations of the breadth-first traversal. -/

theorem bfsAux_nil (nb : Placement → List Placement) (fuel : Nat) (visited : List Placement) :
    bfsAux nb fuel visited [] = some visited := by
  cases fuel <;> rfl

theorem bfsAux_zero_cons (nb : Placement → List Placement) (visited : List Placement)
    (q : Placement) (qs : List Placement) : bfsAux nb 0 visited (q :: qs) = none := rfl

theorem bfsAux_succ_cons (nb : Placement → List Placement) (fuel : Nat)
    (visited : List Placement) (q : Placement) (qs : List Placement) :
    bfsAux nb (fuel + 1) visited (q :: qs) =
      bfsAux nb fuel (visited ++ pushNews visited [] (nb q))
        (qs ++ pushNews visited [] (nb q)) := rfl

/-! Properties of `pushNews`. -/

theorem mem_pushNews {v : List Placement} :
    ∀ l acc x, x ∈ pushNews v acc l → x ∈ acc ∨ x ∈ l := by
  intro l
  induction l with
  | nil => intro acc x h; exact Or.inl h
  | cons a as ih =>
    intro acc x h
    simp only [pushNews] at h
    split at h
    · rcases ih acc x h with h' | h'
      · exact Or.inl h'
      · exact Or.inr (List.mem_cons_of_mem _ h')
    · rcases ih (acc ++ [a]) x h with h' | h'
      · rcases List.mem_append.mp h' with h'' | h''
        · exact Or.inl h''
        · have : x = a := by simpa using h''
          subst this
          exact Or.inr (List.mem_cons_self _ _)
      · exact Or.inr (List.mem_cons_of_mem _ h')

theorem pushNews_sup {v : List Placement} :
    ∀ l acc x, x ∈ acc → x ∈ pushNews v acc l := by
  intro l
  induction l with
  | nil => intro acc x h; exact h
  | cons a as ih =>
    intro acc x h
    simp only [pushNews]
    split
    · exact ih acc x h
    · exact ih (acc ++ [a]) x (List.mem_append_left _ h)

theorem pushNews_covers {v : List Placement} :
    ∀ l acc x, x ∈ l → x ∈ v ∨ x ∈ pushNews v acc l := by
  intro l
  induction l with
  | nil => intro acc x h; cases h
  | cons a as ih =>
    intro acc x h
    rcases List.mem_cons.mp h with rfl | h'
    · simp only [pushNews]
      split
      · rename_i hcond
        rcases hcond with hv | hacc
        · exact Or.inl hv
        · exact Or.inr (pushNews_sup as acc x hacc)
      · exact Or.inr (pushNews_sup as (acc ++ [x]) x (List.mem_append_right _ (by simp)))
    · simp only [pushNews]
      split
      · exact ih acc x h'
      · exact ih (acc ++ [a]) x h'

/-! Properties of `collectDistinct`. -/

theorem mem_collectDistinct :
    ∀ l acc x, x ∈ collectDistinct acc l → x ∈ acc ∨ x ∈ l := by
  intro l
  induction l with
  | nil => intro acc x h; exact Or.inl h
  | cons a as ih =>
    intro acc x h
    simp only [collectDistinct] at h
    split at h
    · rcases ih acc x h with h' | h'
      · exact Or.inl h'
      · exact Or.inr (List.mem_cons_of_mem _ h')
    · rcases ih (acc ++ [a]) x h with h' | h'
      · rcases List.mem_append.mp h' with h'' | h''
        · exact Or.inl h''
        · have : x = a := by simpa using h''
          subst this
          exact Or.inr (List.mem_cons_self _ _)
      · exact Or.inr (List.mem_cons_of_mem _ h')

theorem collectDistinct_sup :
    ∀ l acc x, x ∈ acc → x ∈ collectDistinct acc l := by
  intro l
  induction l with
  | nil => intro acc x h; exact h
  | cons a as ih =>
    intro acc x h
    simp only [collectDistinct]
    split
    · exact ih acc x h
    · exact ih (acc ++ [a]) x (List.mem_append_left _ h)

theorem collectDistinct_covers :
    ∀ l acc x, x ∈ l → x ∈ collectDistinct acc l := by
  intro l
  induction l with
  | nil => intro acc x h; cases h
  | cons a as ih =>
    intro acc x h
    rcases List.mem_cons.mp h with rfl | h'
    · simp only [collectDistinct]
      split
      · exact collectDistinct_sup as acc x (by assumption)
      · exact collectDistinct_sup as (acc ++ [x]) x (List.mem_append_right _ (by simp))
    · simp only [collectDistinct]
      split
      · exact ih acc x h'
      · exact ih (acc ++ [a]) x h'

/-! Soundness and completeness of the breadth-first traversal. -/

theorem bfsAux_sub {nb : Placement → List Placement} :
    ∀ fuel visited queue V, bfsAux nb fuel visited queue = some V → ∀ x ∈ visited, x ∈ V := by
  intro fuel
  induction fuel with
  | zero =>
    intro visited queue V h x hx
    cases queue with
    | nil =>
      rw [bfsAux_nil] at h
      cases h
      exact hx
    | cons a as => rw [bfsAux_zero_cons] at h; cases h
  | succ n ih =>
    intro visited queue V h x hx
    cases queue with
    | nil =>
      rw [bfsAux_nil] at h
      cases h
      exact hx
    | cons a as =>
      rw [bfsAux_succ_cons] at h
      exact ih _ _ _ h x (List.mem_append_left _ hx)

theorem bfsAux_sound {nb : Placement → List Placement} (Inv : Placement → Prop)
    (hstep : ∀ p, Inv p → ∀ x ∈ nb p, Inv x) :
    ∀ fuel visited queue V, bfsAux nb fuel visited queue = some V →
      (∀ v ∈ visited, Inv v) → (∀ q ∈ queue, q ∈ visited) → ∀ v ∈ V, Inv v := by
  intro fuel
  induction fuel with
  | zero =>
    intro visited queue V h hv hq
    cases queue with
    | nil =>
      rw [bfsAux_nil] at h
      cases h
      exact hv
    | cons a as => rw [bfsAux_zero_cons] at h; cases h
  | succ n ih =>
    intro visited queue V h hv hq
    cases queue with
    | nil =>
      rw [bfsAux_nil] at h
      cases h
      exact hv
    | cons a as =>
      rw [bfsAux_succ_cons] at h
      refine ih _ _ _ h ?_ ?_
      · intro v hv'
        rcases List.mem_append.mp hv' with h' | h'
        · exact hv v h'
        · rcases mem_pushNews _ _ _ h' with h'' | h''
          · cases h''
          · exact hstep a (hv a (hq a (List.mem_cons_self a as))) v h''
      · intro q hq'
        rcases List.mem_append.mp hq' with h' | h'
        · exact List.mem_append_left _ (hq q (List.mem_cons_of_mem a h'))
        · exact List.mem_append_right _ h'

theorem bfsAux_closed {nb : Placement → List Placement} :
    ∀ fuel visited queue V, bfsAux nb fuel visited queue = some V →
      (∀ v ∈ visited, v ∈ queue ∨ ∀ x ∈ nb v, x ∈ visited) →
      ∀ v ∈ V, ∀ x ∈ nb v, x ∈ V := by
  intro fuel
  induction fuel with
  | zero =>
    intro visited queue V h hinv
    cases queue with
    | nil =>
      rw [bfsAux_nil] at h
      cases h
      intro v hv x hx
      rcases hinv v hv with h' | h'
      · cases h'
      · exact h' x hx
    | cons a as => rw [bfsAux_zero_cons] at h; cases h
  | succ n ih =>
    intro visited queue V h hinv
    cases queue with
    | nil =>
      rw [bfsAux_nil] at h
      cases h
      intro v hv x hx
      rcases hinv v hv with h' | h'
      · cases h'
      · exact h' x hx
    | cons a as =>
      rw [bfsAux_succ_cons] at h
      refine ih _ _ _ h ?_
      intro v hv
      rcases List.mem_append.mp hv with h' | h'
      · rcases hinv v h' with h'' | h''
        · rcases List.mem_cons.mp h'' with rfl | h3
          · right
            intro x hx
            rcases pushNews_covers (nb v) ([] : List Placement) x hx with h4 | h4
            · exact List.mem_append_left _ h4
            · exact List.mem_append_right _ h4
          · left
            exact List.mem_append_left _ h3
        · right
          intro x hx
          exact List.mem_append_left _ (h'' x hx)
      · left
        exact List.mem_append_right _ h'

/-! Reachability along atomic edges. -/

theorem ReachableBy.trans {nb : Placement → List Placement} {p q r : Placement}
    (h1 : ReachableBy nb p q) (h2 : ReachableBy nb q r) : ReachableBy nb p r := by
  induction h2 with
  | refl => exact h1
  | step _ hm ih => exact ReachableBy.step ih hm

theorem ReachableBy.mono {nb nb' : Placement → List Placement}
    (hsub : ∀ p x, x ∈ nb p → x ∈ nb' p) {a b : Placement}
    (h : ReachableBy nb a b) : ReachableBy nb' a b := by
  induction h with
  | refl => exact ReachableBy.refl _
  | step _ hm ih => exact ReachableBy.step ih (hsub _ _ hm)

theorem mem_of_closed {nb : Placement → List Placement} {V : List Placement}
    (hcl : ∀ v ∈ V, ∀ x ∈ nb v, x ∈ V) {s p : Placement} (hs : s ∈ V)
    (h : ReachableBy nb s p) : p ∈ V := by
  induction h with
  | refl => exact hs
  | step _ hm ih => exact hcl _ ih _ hm

/-! Every neighbor produced by the edge functions is a valid placement. -/

theorem tryKicks_canPlace {cfg : GameConfig} {o : Orientation} {p : Placement} :
    ∀ ks q, tryKicks cfg o p ks = some q → canPlace cfg q = true := by
  intro ks
  induction ks with
  | nil => intro q h; cases h
  | cons k ks ih =>
    intro q h
    simp only [tryKicks] at h
    split at h
    · rename_i hc
      cases h
      exact hc
    · exact ih q h

theorem rotateBy_canPlace {cfg : GameConfig} {r : Rotation} {p q : Placement}
    (h : rotateBy cfg r p = some q) : canPlace cfg q = true :=
  tryKicks_canPlace _ _ h

theorem mem_optionToList_rotateBy {cfg : GameConfig} {r : Rotation} {p x : Placement}
    (h : x ∈ optionToList (rotateBy cfg r p)) : canPlace cfg x = true := by
  cases hro : rotateBy cfg r p with
  | none => rw [hro] at h; cases h
  | some q =>
    rw [hro] at h
    have : x = q := by simpa [optionToList] using h
    subst this
    exact rotateBy_canPlace hro

theorem mem_airborneNeighbors {cfg : GameConfig} {p x : Placement}
    (h : x ∈ airborneNeighbors cfg p) : canPlace cfg x = true := by
  simp only [airborneNeighbors, List.mem_append] at h
  rcases h with ((h1 | h2) | h3) | h4
  · split at h1
    · rename_i hc
      have : x = shiftLeft p := by simpa using h1
      subst this
      exact hc
    · cases h1
  · split at h2
    · rename_i hc
      have : x = shiftRight p := by simpa using h2
      subst this
      exact hc
    · cases h2
  · exact mem_optionToList_rotateBy h3
  · exact mem_optionToList_rotateBy h4

theorem mem_softdropNeighbors {cfg : GameConfig} {p x : Placement}
    (h : x ∈ softdropNeighbors cfg p) : canPlace cfg x = true := by
  simp only [softdropNeighbors, List.mem_append] at h
  rcases h with h1 | h2
  · exact mem_airborneNeighbors h1
  · split at h2
    · rename_i hc
      have : x = down p := by simpa using h2
      subst this
      exact hc
    · cases h2

theorem airborne_sub_soft {cfg : GameConfig} {p x : Placement}
    (h : x ∈ airborneNeighbors cfg p) : x ∈ softdropNeighbors cfg p :=
  List.mem_append_left _ h

theorem down_mem_soft {cfg : GameConfig} {p : Placement}
    (h : canPlace cfg (down p) = true) : down p ∈ softdropNeighbors cfg p := by
  refine List.mem_append_right _ ?_
  rw [if_pos h]
  simp

/-! Properties of the hard drop. -/

theorem downN_zero (p : Placement) : downN 0 p = p := by
  cases p
  simp [downN]

theorem downN_succ (n : Nat) (p : Placement) : downN (n + 1) p = downN n (down p) := by
  cases p with
  | mk o x y =>
    simp only [downN, down, Placement.mk.injEq, true_and]
    omega

theorem downN_orientation (n : Nat) (p : Placement) : (downN n p).orientation = p.orientation := rfl

theorem hardDropAux_canPlace {cfg : GameConfig} :
    ∀ n p, canPlace cfg p = true → canPlace cfg (hardDropAux cfg n p) = true := by
  intro n
  induction n with
  | zero => intro p h; exact h
  | succ n ih =>
    intro p h
    simp only [hardDropAux]
    split
    · rename_i hc
      exact ih _ hc
    · exact h

theorem hardDropAux_term {cfg : GameConfig} :
    ∀ n p, canPlace cfg p = true → canPlace cfg (downN n p) = false →
      canPlace cfg (down (hardDropAux cfg n p)) = false := by
  intro n
  induction n with
  | zero =>
    intro p h h0
    rw [downN_zero, h] at h0
    cases h0
  | succ n ih =>
    intro p h hn
    simp only [hardDropAux]
    split
    · rename_i hc
      refine ih (down p) hc ?_
      rw [← downN_succ]
      exact hn
    · rename_i hc
      simpa using hc

theorem canPlace_downN_height {cfg : GameConfig} {p : Placement}
    (hne : cfg.cells p.orientation ≠ []) (h : canPlace cfg p = true) :
    canPlace cfg (downN cfg.height p) = false := by
  rcases List.exists_mem_of_ne_nil _ hne with ⟨c, hc⟩
  cases hcontra : canPlace cfg (downN cfg.height p) with
  | false => rfl
  | true =>
    exfalso
    have h1 := List.all_eq_true.mp h (p.x + c.1, p.y + c.2)
      (List.mem_map_of_mem _ hc)
    have h2 := List.all_eq_true.mp hcontra (p.x + c.1, p.y - cfg.height + c.2)
      (List.mem_map_of_mem _ hc)
    simp only [Bool.and_eq_true, decide_eq_true_eq] at h1 h2
    omega

theorem hardDrop_canPlace {cfg : GameConfig} {p : Placement}
    (h : canPlace cfg p = true) : canPlace cfg (hardDrop cfg p) = true :=
  hardDropAux_canPlace _ _ h

theorem hardDrop_term {cfg : GameConfig} {p : Placement}
    (hne : cfg.cells p.orientation ≠ []) (h : canPlace cfg p = true) :
    canPlace cfg (down (hardDrop cfg p)) = false :=
  hardDropAux_term _ _ h (canPlace_downN_height hne h)

theorem hardDropAux_reach {cfg : GameConfig} :
    ∀ n p, ReachableBy (softdropNeighbors cfg) p (hardDropAux cfg n p) := by
  intro n
  induction n with
  | zero => intro p; exact ReachableBy.refl p
  | succ n ih =>
    intro p
    simp only [hardDropAux]
    split
    · rename_i hc
      exact ReachableBy.trans
        (ReachableBy.step (ReachableBy.refl p) (down_mem_soft hc)) (ih (down p))
    · exact ReachableBy.refl p

theorem descend_to_terminal {cfg : GameConfig} :
    ∀ n p, canPlace cfg p = true → canPlace cfg (downN n p) = false →
      ∃ r, ReachableBy (softdropNeighbors cfg) p r ∧ canPlace cfg r = true ∧
        canPlace cfg (down r) = false := by
  intro n
  induction n with
  | zero =>
    intro p h h0
    rw [downN_zero, h] at h0
    cases h0
  | succ n ih =>
    intro p h hn
    cases hd : canPlace cfg (down p) with
    | false => exact ⟨p, ReachableBy.refl p, h, hd⟩
    | true =>
      rcases ih (down p) hd (by rw [← downN_succ]; exact hn) with ⟨r, hr1, hr2, hr3⟩
      exact ⟨r, ReachableBy.trans
        (ReachableBy.step (ReachableBy.refl p) (down_mem_soft hd)) hr1, hr2, hr3⟩

/-! What a completed search run returns: sound and complete characterizations. -/

theorem all_moves_softdrop_spec {cfg : GameConfig} {spawn : Placement} {fuel : Nat}
    {A : List Placement} (hs : canPlace cfg spawn = true)
    (h : all_moves_softdrop cfg spawn fuel = some A) :
    ∀ p ∈ A, canPlace cfg p = true ∧ canPlace cfg (down p) = false ∧
      ReachableBy (softdropNeighbors cfg) spawn p := by
  unfold all_moves_softdrop at h
  rw [if_pos hs] at h
  rcases Option.map_eq_some'.mp h with ⟨V, hV, hA⟩
  subst hA
  intro p hp
  rw [List.mem_filter] at hp
  obtain ⟨hpV, hcond⟩ := hp
  have hsound := bfsAux_sound
    (fun q => canPlace cfg q = true ∧ ReachableBy (softdropNeighbors cfg) spawn q)
    (fun q hq x hx => ⟨mem_softdropNeighbors hx, ReachableBy.step hq.2 hx⟩)
    fuel [spawn] [spawn] V hV
    (List.forall_mem_singleton.mpr ⟨hs, ReachableBy.refl spawn⟩)
    (fun q hq => hq)
  rcases hsound p hpV with ⟨hcan, hreach⟩
  refine ⟨hcan, ?_, hreach⟩
  simpa using hcond

theorem all_moves_softdrop_complete {cfg : GameConfig} {spawn : Placement} {fuel : Nat}
    {A : List Placement} (hs : canPlace cfg spawn = true)
    (h : all_moves_softdrop cfg spawn fuel = some A) :
    ∀ p, ReachableBy (softdropNeighbors cfg) spawn p →
      canPlace cfg (down p) = false → p ∈ A := by
  unfold all_moves_softdrop at h
  rw [if_pos hs] at h
  rcases Option.map_eq_some'.mp h with ⟨V, hV, hA⟩
  subst hA
  intro p hreach hterm
  have hclosed := bfsAux_closed fuel [spawn] [spawn] V hV (fun v hv => Or.inl hv)
  have hspawnV : spawn ∈ V := bfsAux_sub fuel [spawn] [spawn] V hV spawn (by simp)
  have hpV : p ∈ V := mem_of_closed hclosed hspawnV hreach
  rw [List.mem_filter]
  exact ⟨hpV, by simp [hterm]⟩

theorem all_moves_harddrop_spec {cfg : GameConfig} {spawn : Placement} {fuel : Nat}
    {A : List Placement} (hs : canPlace cfg spawn = true)
    (h : all_moves_harddrop cfg spawn fuel = some A) :
    ∀ p ∈ A, ∃ q, ReachableBy (airborneNeighbors cfg) spawn q ∧
      canPlace cfg q = true ∧ p = hardDrop cfg q := by
  unfold all_moves_harddrop at h
  rw [if_pos hs] at h
  rcases Option.map_eq_some'.mp h with ⟨V, hV, hA⟩
  subst hA
  intro p hp
  rcases mem_collectDistinct _ _ _ hp with h0 | h1
  · cases h0
  · rcases List.mem_map.mp h1 with ⟨q, hqV, rfl⟩
    have hsound := bfsAux_sound
      (fun u => canPlace cfg u = true ∧ ReachableBy (airborneNeighbors cfg) spawn u)
      (fun u hu x hx => ⟨mem_airborneNeighbors hx, ReachableBy.step hu.2 hx⟩)
      fuel [spawn] [spawn] V hV
      (List.forall_mem_singleton.mpr ⟨hs, ReachableBy.refl spawn⟩)
      (fun u hu => hu)
    exact ⟨q, (hsound q hqV).2, (hsound q hqV).1, rfl⟩

theorem all_moves_harddrop_complete {cfg : GameConfig} {spawn : Placement} {fuel : Nat}
    {A : List Placement} (hs : canPlace cfg spawn = true)
    (h : all_moves_harddrop cfg spawn fuel = some A) :
    ∀ q, ReachableBy (airborneNeighbors cfg) spawn q → hardDrop cfg q ∈ A := by
  unfold all_moves_harddrop at h
  rw [if_pos hs] at h
  rcases Option.map_eq_some'.mp h with ⟨V, hV, hA⟩
  subst hA
  intro q hreach
  have hclosed := bfsAux_closed fuel [spawn] [spawn] V hV (fun v hv => Or.inl hv)
  have hspawnV : spawn ∈ V := bfsAux_sub fuel [spawn] [spawn] V hV spawn (by simp)
  have hqV : q ∈ V := mem_of_closed hclosed hspawnV hreach
  exact collectDistinct_covers _ _ _ (List.mem_map_of_mem _ hqV)

/-! Footprint equivalence. -/

theorem sameFootprint_iff {cfg : GameConfig} {p q : Placement} :
    sameFootprint cfg p q = true ↔
      ((∀ c ∈ absCells cfg p, c ∈ absCells cfg q) ∧
        (∀ c ∈ absCells cfg q, c ∈ absCells cfg p)) := by
  simp [sameFootprint, List.all_eq_true]

theorem sameFootprint_refl {cfg : GameConfig} {p : Placement} :
    sameFootprint cfg p p = true :=
  sameFootprint_iff.mpr ⟨fun _ hc => hc, fun _ hc => hc⟩

theorem sameFootprint_trans {cfg : GameConfig} {p q r : Placement}
    (h1 : sameFootprint cfg p q = true) (h2 : sameFootprint cfg q r = true) :
    sameFootprint cfg p r = true := by
  rcases sameFootprint_iff.mp h1 with ⟨h1a, h1b⟩
  rcases sameFootprint_iff.mp h2 with ⟨h2a, h2b⟩
  exact sameFootprint_iff.mpr ⟨fun c hc => h2a c (h1a c hc), fun c hc => h1b c (h2b c hc)⟩

/-! Properties of the footprint reducer. -/

theorem mem_minimizedFrom {cfg : GameConfig} :
    ∀ l acc x, x ∈ minimizedFrom cfg acc l → x ∈ acc ∨ x ∈ l := by
  intro l
  induction l with
  | nil => intro acc x h; exact Or.inl h
  | cons a as ih =>
    intro acc x h
    simp only [minimizedFrom] at h
    split at h
    · rcases ih acc x h with h' | h'
      · exact Or.inl h'
      · exact Or.inr (List.mem_cons_of_mem _ h')
    · rcases ih (acc ++ [a]) x h with h' | h'
      · rcases List.mem_append.mp h' with h'' | h''
        · exact Or.inl h''
        · have : x = a := by simpa using h''
          subst this
          exact Or.inr (List.mem_cons_self _ _)
      · exact Or.inr (List.mem_cons_of_mem _ h')

theorem minimizedFrom_length_le {cfg : GameConfig} :
    ∀ l acc, (minimizedFrom cfg acc l).length ≤ acc.length + l.length := by
  intro l
  induction l with
  | nil => intro acc; simp [minimizedFrom]
  | cons a as ih =>
    intro acc
    simp only [minimizedFrom]
    split
    · have := ih acc
      simp only [List.length_cons]
      omega
    · have := ih (acc ++ [a])
      simp only [List.length_append, List.length_cons, List.length_nil] at this ⊢
      omega

theorem minimizedFrom_eq_of_pairwise {cfg : GameConfig} :
    ∀ l acc, List.Pairwise (fun p q => sameFootprint cfg p q = false) l →
      (∀ a ∈ acc, ∀ x ∈ l, sameFootprint cfg a x = false) →
      minimizedFrom cfg acc l = acc ++ l := by
  intro l
  induction l with
  | nil => intro acc _ _; simp [minimizedFrom]
  | cons a as ih =>
    intro acc hpw hacc
    rw [List.pairwise_cons] at hpw
    have hnext : ∀ b ∈ acc ++ [a], ∀ x ∈ as, sameFootprint cfg b x = false := by
      intro b hb x hx
      rcases List.mem_append.mp hb with h1 | h1
      · exact hacc b h1 x (List.mem_cons_of_mem _ hx)
      · have : b = a := by simpa using h1
        subst this
        exact hpw.1 x hx
    simp only [minimizedFrom]
    split
    · rename_i hcontra
      exfalso
      rcases List.any_eq_true.mp hcontra with ⟨q, hq, hfq⟩
      have := hacc q hq a (List.mem_cons_self a as)
      rw [this] at hfq
      cases hfq
    · rw [ih (acc ++ [a]) hpw.2 hnext]
      simp

theorem minimizedFrom_length_lt {cfg : GameConfig} :
    ∀ l acc, ((∃ x ∈ l, ∃ q ∈ acc, sameFootprint cfg q x = true) ∨
        ¬ List.Pairwise (fun p q => sameFootprint cfg p q = false) l) →
      (minimizedFrom cfg acc l).length < acc.length + l.length := by
  intro l
  induction l with
  | nil =>
    intro acc h
    rcases h with ⟨x, hx, _⟩ | h
    · cases hx
    · exact absurd List.Pairwise.nil h
  | cons a as ih =>
    intro acc h
    simp only [minimizedFrom]
    split
    · have := @minimizedFrom_length_le cfg as acc
      simp only [List.length_cons]
      omega
    · rename_i hguard
      have hstep : (∃ x ∈ as, ∃ q ∈ acc ++ [a], sameFootprint cfg q x = true) ∨
          ¬ List.Pairwise (fun p q => sameFootprint cfg p q = false) as := by
        rcases h with ⟨x, hx, q, hq, hfq⟩ | hnp
        · rcases List.mem_cons.mp hx with rfl | hx'
          · exact absurd (List.any_eq_true.mpr ⟨q, hq, hfq⟩) hguard
          · exact Or.inl ⟨x, hx', q, List.mem_append_left _ hq, hfq⟩
        · by_cases hpas : List.Pairwise (fun p q => sameFootprint cfg p q = false) as
          · rw [List.pairwise_cons] at hnp
            have hnall : ¬ ∀ y ∈ as, sameFootprint cfg a y = false :=
              fun hall => hnp ⟨hall, hpas⟩
            push_neg at hnall
            rcases hnall with ⟨y, hy, hne⟩
            have hyt : sameFootprint cfg a y = true := by
              cases hv : sameFootprint cfg a y
              · exact absurd hv hne
              · rfl
            exact Or.inl ⟨y, hy, a, List.mem_append_right _ (by simp), hyt⟩
          · exact Or.inr hpas
      have := ih (acc ++ [a]) hstep
      simp only [List.length_append, List.length_cons, List.length_nil] at this ⊢
      omega

theorem minimizedFrom_length_eq_iff {cfg : GameConfig} (l : List Placement) :
    (minimizedFrom cfg [] l).length = l.length ↔
      List.Pairwise (fun p q => sameFootprint cfg p q = false) l := by
  constructor
  · intro h
    by_contra hnp
    have := minimizedFrom_length_lt l [] (Or.inr hnp)
    simp only [List.length_nil, Nat.zero_add] at this
    omega
  · intro hpw
    rw [minimizedFrom_eq_of_pairwise l [] hpw (fun a ha => absurd ha (List.not_mem_nil a))]
    simp

theorem find?_first {pred : Placement → Bool} (p : Placement) :
    ∀ l1 l2, (∀ q ∈ l1, pred q = false) → pred p = true →
      ((l1 ++ p :: l2).find? pred) = some p := by
  intro l1
  induction l1 with
  | nil =>
    intro l2 _ hp
    simp [List.find?, hp]
  | cons a as ih =>
    intro l2 hall hp
    have ha : pred a = false := hall a (List.mem_cons_self _ _)
    simp only [List.cons_append, List.find?, ha]
    exact ih l2 (fun q hq => hall q (List.mem_cons_of_mem _ hq)) hp

theorem minimizedFrom_firstRep {cfg : GameConfig} :
    ∀ l acc pre,
      (∀ p ∈ acc, ∃ l1 l2, pre = l1 ++ p :: l2 ∧ ∀ q ∈ l1, sameFootprint cfg q p = false) →
      (∀ r ∈ pre, ∃ q ∈ acc, sameFootprint cfg q r = true) →
      ∀ p ∈ minimizedFrom cfg acc l,
        ∃ l1 l2, pre ++ l = l1 ++ p :: l2 ∧ ∀ q ∈ l1, sameFootprint cfg q p = false := by
  intro l
  induction l with
  | nil =>
    intro acc pre hrep _ p hp
    simp only [minimizedFrom] at hp
    rcases hrep p hp with ⟨l1, l2, heq, hq⟩
    exact ⟨l1, l2, by simp [heq], hq⟩
  | cons a as ih =>
    intro acc pre hrep hcov p hp
    simp only [minimizedFrom] at hp
    split at hp
    · rename_i hguard
      have hrep' : ∀ x ∈ acc, ∃ l1 l2, pre ++ [a] = l1 ++ x :: l2 ∧
          ∀ q ∈ l1, sameFootprint cfg q x = false := by
        intro x hx
        rcases hrep x hx with ⟨l1, l2, heq, hq⟩
        exact ⟨l1, l2 ++ [a], by rw [heq]; simp, hq⟩
      have hcov' : ∀ r ∈ pre ++ [a], ∃ q ∈ acc, sameFootprint cfg q r = true := by
        intro r hr
        rcases List.mem_append.mp hr with h1 | h1
        · exact hcov r h1
        · have hr1 : r = a := by simpa using h1
          rcases List.any_eq_true.mp hguard with ⟨q, hq, hfq⟩
          exact ⟨q, hq, by rw [hr1]; exact hfq⟩
      have := ih acc (pre ++ [a]) hrep' hcov' p hp
      simpa [List.append_assoc] using this
    · rename_i hguard
      have hfirst : ∀ q ∈ pre, sameFootprint cfg q a = false := by
        intro q hq
        by_contra hne
        have hqt : sameFootprint cfg q a = true := by
          cases hv : sameFootprint cfg q a
          · exact absurd hv hne
          · rfl
        rcases hcov q hq with ⟨r, hr, hrq⟩
        exact hguard (List.any_eq_true.mpr ⟨r, hr, sameFootprint_trans hrq hqt⟩)
      have hrep' : ∀ x ∈ acc ++ [a], ∃ l1 l2, pre ++ [a] = l1 ++ x :: l2 ∧
          ∀ q ∈ l1, sameFootprint cfg q x = false := by
        intro x hx
        rcases List.mem_append.mp hx with h1 | h1
        · rcases hrep x h1 with ⟨l1, l2, heq, hq⟩
          exact ⟨l1, l2 ++ [a], by rw [heq]; simp, hq⟩
        · have hx1 : x = a := by simpa using h1
          rw [hx1]
          exact ⟨pre, [], rfl, hfirst⟩
      have hcov' : ∀ r ∈ pre ++ [a], ∃ q ∈ acc ++ [a], sameFootprint cfg q r = true := by
        intro r hr
        rcases List.mem_append.mp hr with h1 | h1
        · rcases hcov r h1 with ⟨q, hq, hfq⟩
          exact ⟨q, List.mem_append_left _ hq, hfq⟩
        · have hr1 : r = a := by simpa using h1
          rw [hr1]
          exact ⟨a, List.mem_append_right _ (by simp), sameFootprint_refl⟩
      have := ih (acc ++ [a]) (pre ++ [a]) hrep' hcov' p hp
      simpa [List.append_assoc] using this

theorem minimizedFrom_find {cfg : GameConfig} {l : List Placement} {p : Placement}
    (hp : p ∈ minimizedFrom cfg [] l) :
    p ∈ l ∧ (l.find? fun q => sameFootprint cfg q p) = some p := by
  have := minimizedFrom_firstRep l [] []
    (fun x hx => absurd hx (List.not_mem_nil x))
    (fun r hr => absurd hr (List.not_mem_nil r)) p hp
  rcases this with ⟨l1, l2, heq, hq⟩
  simp only [List.nil_append] at heq
  subst heq
  constructor
  · exact List.mem_append_right _ (List.mem_cons_self _ _)
  · exact find?_first p l1 l2 hq sameFootprint_refl

/-- The minimized generator is the footprint reducer applied to the all-moves
result (both dispatch identically on the drop discipline). -/
theorem generate_minimized_eq (rules : MoveRules) (board : Board)
    (shape : Orientation → List (Int × Int)) (spawn : Placement) (fuel : Nat) :
    rules.generate_minimized_moves board shape spawn fuel =
      (rules.generate_all_moves board shape spawn fuel).map
        (minimizedFrom (mkConfig board shape rules.rotation_system) []) := by
  rcases rules with ⟨rs, d⟩
  cases d <;> rfl

/-! The claims. -/

/-! Evaluation of the reference scenario, one breadth-first step at a time:
each step's newly discovered frontier is computed on fully evaluated list
literals, then the terminal placements are obtained by hard-dropping every
visited airborne node. -/

theorem bfsC1_run :
    bfsAux (airborneNeighbors cfgC1) 40 [spawnC1] [spawnC1] =
      some [Placement.mk Orientation.North 4 19,
      Placement.mk Orientation.North 3 19,
      Placement.mk Orientation.North 5 19,
      Placement.mk Orientation.East 4 19,
      Placement.mk Orientation.West 4 19,
      Placement.mk Orientation.North 2 19,
      Placement.mk Orientation.East 3 19,
      Placement.mk Orientation.West 3 19,
      Placement.mk Orientation.North 6 19,
      Placement.mk Orientation.East 5 19,
      Placement.mk Orientation.West 5 19,
      Placement.mk Orientation.South 4 19,
      Placement.mk Orientation.North 1 19,
      Placement.mk Orientation.East 2 19,
      Placement.mk Orientation.West 2 19,
      Placement.mk Orientation.South 3 19,
      Placement.mk Orientation.North 7 19,
      Placement.mk Orientation.East 6 19,
      Placement.mk Orientation.West 6 19,
      Placement.mk Orientation.South 5 19,
      Placement.mk Orientation.North 0 19,
      Placement.mk Orientation.East 1 19,
      Placement.mk Orientation.West 1 19,
      Placement.mk Orientation.South 2 19,
      Placement.mk Orientation.East 7 19,
      Placement.mk Orientation.West 7 19,
      Placement.mk Orientation.South 6 19,
      Placement.mk Orientation.East 0 19,
      Placement.mk Orientation.West 0 19,
      Placement.mk Orientation.South 1 19,
      Placement.mk Orientation.South 7 19,
      Placement.mk Orientation.West 8 19,
      Placement.mk Orientation.East (-1) 19,
      Placement.mk Orientation.South 0 19] := by
  have hsp : spawnC1 = Placement.mk Orientation.North 4 19 := rfl
  rw [hsp]
  have e0 : pushNews [Placement.mk Orientation.North 4 19] [] (airborneNeighbors cfgC1 (Placement.mk Orientation.North 4 19)) =
      [Placement.mk Orientation.North 3 19,
      Placement.mk Orientation.North 5 19,
      Placement.mk Orientation.East 4 19,
      Placement.mk Orientation.West 4 19] := by decide
  have e1 : pushNews [Placement.mk Orientation.North 4 19,
      Placement.mk Orientation.North 3 19,
      Placement.mk Orientation.North 5 19,
      Placement.mk Orientation.East 4 19,
      Placement.mk Orientation.West 4 19] [] (airborneNeighbors cfgC1 (Placement.mk Orientation.North 3 19)) =
      [Placement.mk Orientation.North 2 19,
      Placement.mk Orientation.East 3 19,
      Placement.mk Orientation.West 3 19] := by decide
  have e2 : pushNews [Placement.mk Orientation.North 4 19,
      Placement.mk Orientation.North 3 19,
      Placement.mk Orientation.North 5 19,
      Placement.mk Orientation.East 4 19,
      Placement.mk Orientation.West 4 19,
      Placement.mk Orientation.North 2 19,
      Placement.mk Orientation.East 3 19,
      Placement.mk Orientation.West 3 19] [] (airborneNeighbors cfgC1 (Placement.mk Orientation.North 5 19)) =
      [Placement.mk Orientation.North 6 19,
      Placement.mk Orientation.East 5 19,
      Placement.mk Orientation.West 5 19] := by decide
  have e3 : pushNews [Placement.mk Orientation.North 4 19,
      Placement.mk Orientation.North 3 19,
      Placement.mk Orientation.North 5 19,
      Placement.mk Orientation.East 4 19,
      Placement.mk Orientation.West 4 19,
      Placement.mk Orientation.North 2 19,
      Placement.mk Orientation.East 3 19,
      Placement.mk Orientation.West 3 19,
      Placement.mk Orientation.North 6 19,
      Placement.mk Orientation.East 5 19,
      Placement.mk Orientation.West 5 19] [] (airborneNeighbors cfgC1 (Placement.mk Orientation.East 4 19)) =
      [Placement.mk Orientation.South 4 19] := by decide
  have e4 : pushNews [Placement.mk Orientation.North 4 19,
      Placement.mk Orientation.North 3 19,
      Placement.mk Orientation.North 5 19,
      Placement.mk Orientation.East 4 19,
      Placement.mk Orientation.West 4 19,
      Placement.mk Orientation.North 2 19,
      Placement.mk Orientation.East 3 19,
      Placement.mk Orientation.West 3 19,
      Placement.mk Orientation.North 6 19,
      Placement.mk Orientation.East 5 19,
      Placement.mk Orientation.West 5 19,
      Placement.mk Orientation.South 4 19] [] (airborneNeighbors cfgC1 (Placement.mk Orientation.West 4 19)) =
      [] := by decide
  have e5 : pushNews [Placement.mk Orientation.North 4 19,
      Placement.mk Orientation.North 3 19,
      Placement.mk Orientation.North 5 19,
      Placement.mk Orientation.East 4 19,
      Placement.mk Orientation.West 4 19,
      Placement.mk Orientation.North 2 19,
      Placement.mk Orientation.East 3 19,
      Placement.mk Orientation.West 3 19,
      Placement.mk Orientation.North 6 19,
      Placement.mk Orientation.East 5 19,
      Placement.mk Orientation.West 5 19,
      Placement.mk Orientation.South 4 19] [] (airborneNeighbors cfgC1 (Placement.mk Orientation.North 2 19)) =
      [Placement.mk Orientation.North 1 19,
      Placement.mk Orientation.East 2 19,
      Placement.mk Orientation.West 2 19] := by decide
  have e6 : pushNews [Placement.mk Orientation.North 4 19,
      Placement.mk Orientation.North 3 19,
      Placement.mk Orientation.North 5 19,
      Placement.mk Orientation.East 4 19,
      Placement.mk Orientation.West 4 19,
      Placement.mk Orientation.North 2 19,
      Placement.mk Orientation.East 3 19,
      Placement.mk Orientation.West 3 19,
      Placement.mk Orientation.North 6 19,
      Placement.mk Orientation.East 5 19,
      Placement.mk Orientation.West 5 19,
      Placement.mk Orientation.South 4 19,
      Placement.mk Orientation.North 1 19,
      Placement.mk Orientation.East 2 19,
      Placement.mk Orientation.West 2 19] [] (airborneNeighbors cfgC1 (Placement.mk Orientation.East 3 19)) =
      [Placement.mk Orientation.South 3 19] := by decide
  have e7 : pushNews [Placement.mk Orientation.North 4 19,
      Placement.mk Orientation.North 3 19,
      Placement.mk Orientation.North 5 19,
      Placement.mk Orientation.East 4 19,
      Placement.mk Orientation.West 4 19,
      Placement.mk Orientation.North 2 19,
      Placement.mk Orientation.East 3 19,
      Placement.mk Orientation.West 3 19,
      Placement.mk Orientation.North 6 19,
      Placement.mk Orientation.East 5 19,
      Placement.mk Orientation.West 5 19,
      Placement.mk Orientation.South 4 19,
      Placement.mk Orientation.North 1 19,
      Placement.mk Orientation.East 2 19,
      Placement.mk Orientation.West 2 19,
      Placement.mk Orientation.South 3 19] [] (airborneNeighbors cfgC1 (Placement.mk Orientation.West 3 19)) =
      [] := by decide
  have e8 : pushNews [Placement.mk Orientation.North 4 19,
      Placement.mk Orientation.North 3 19,
      Placement.mk Orientation.North 5 19,
      Placement.mk Orientation.East 4 19,
      Placement.mk Orientation.West 4 19,
      Placement.mk Orientation.North 2 19,
      Placement.mk Orientation.East 3 19,
      Placement.mk Orientation.West 3 19,
      Placement.mk Orientation.North 6 19,
      Placement.mk Orientation.East 5 19,
      Placement.mk Orientation.West 5 19,
      Placement.mk Orientation.South 4 19,
      Placement.mk Orientation.North 1 19,
      Placement.mk Orientation.East 2 19,
      Placement.mk Orientation.West 2 19,
      Placement.mk Orientation.South 3 19] [] (airborneNeighbors cfgC1 (Placement.mk Orientation.North 6 19)) =
      [Placement.mk Orientation.North 7 19,
      Placement.mk Orientation.East 6 19,
      Placement.mk Orientation.West 6 19] := by decide
  have e9 : pushNews [Placement.mk Orientation.North 4 19,
      Placement.mk Orientation.North 3 19,
      Placement.mk Orientation.North 5 19,
      Placement.mk Orientation.East 4 19,
      Placement.mk Orientation.West 4 19,
      Placement.mk Orientation.North 2 19,
      Placement.mk Orientation.East 3 19,
      Placement.mk Orientation.West 3 19,
      Placement.mk Orientation.North 6 19,
      Placement.mk Orientation.East 5 19,
      Placement.mk Orientation.West 5 19,
      Placement.mk Orientation.South 4 19,
      Placement.mk Orientation.North 1 19,
      Placement.mk Orientation.East 2 19,
      Placement.mk Orientation.West 2 19,
      Placement.mk Orientation.South 3 19,
      Placement.mk Orientation.North 7 19,
      Placement.mk Orientation.East 6 19,
      Placement.mk Orientation.West 6 19] [] (airborneNeighbors cfgC1 (Placement.mk Orientation.East 5 19)) =
      [Placement.mk Orientation.South 5 19] := by decide
  have e10 : pushNews [Placement.mk Orientation.North 4 19,
      Placement.mk Orientation.North 3 19,
      Placement.mk Orientation.North 5 19,
      Placement.mk Orientation.East 4 19,
      Placement.mk Orientation.West 4 19,
      Placement.mk Orientation.North 2 19,
      Placement.mk Orientation.East 3 19,
      Placement.mk Orientation.West 3 19,
      Placement.mk Orientation.North 6 19,
      Placement.mk Orientation.East 5 19,
      Placement.mk Orientation.West 5 19,
      Placement.mk Orientation.South 4 19,
      Placement.mk Orientation.North 1 19,
      Placement.mk Orientation.East 2 19,
      Placement.mk Orientation.West 2 19,
      Placement.mk Orientation.South 3 19,
      Placement.mk Orientation.North 7 19,
      Placement.mk Orientation.East 6 19,
      Placement.mk Orientation.West 6 19,
      Placement.mk Orientation.South 5 19] [] (airborneNeighbors cfgC1 (Placement.mk Orientation.West 5 19)) =
      [] := by decide
  have e11 : pushNews [Placement.mk Orientation.North 4 19,
      Placement.mk Orientation.North 3 19,
      Placement.mk Orientation.North 5 19,
      Placement.mk Orientation.East 4 19,
      Placement.mk Orientation.West 4 19,
      Placement.mk Orientation.North 2 19,
      Placement.mk Orientation.East 3 19,
      Placement.mk Orientation.West 3 19,
      Placement.mk Orientation.North 6 19,
      Placement.mk Orientation.East 5 19,
      Placement.mk Orientation.West 5 19,
      Placement.mk Orientation.South 4 19,
      Placement.mk Orientation.North 1 19,
      Placement.mk Orientation.East 2 19,
      Placement.mk Orientation.West 2 19,
      Placement.mk Orientation.South 3 19,
      Placement.mk Orientation.North 7 19,
      Placement.mk Orientation.East 6 19,
      Placement.mk Orientation.West 6 19,
      Placement.mk Orientation.South 5 19] [] (airborneNeighbors cfgC1 (Placement.mk Orientation.South 4 19)) =
      [] := by decide
  have e12 : pushNews [Placement.mk Orientation.North 4 19,
      Placement.mk Orientation.North 3 19,
      Placement.mk Orientation.North 5 19,
      Placement.mk Orientation.East 4 19,
      Placement.mk Orientation.West 4 19,
      Placement.mk Orientation.North 2 19,
      Placement.mk Orientation.East 3 19,
      Placement.mk Orientation.West 3 19,
      Placement.mk Orientation.North 6 19,
      Placement.mk Orientation.East 5 19,
      Placement.mk Orientation.West 5 19,
      Placement.mk Orientation.South 4 19,
      Placement.mk Orientation.North 1 19,
      Placement.mk Orientation.East 2 19,
      Placement.mk Orientation.West 2 19,
      Placement.mk Orientation.South 3 19,
      Placement.mk Orientation.North 7 19,
      Placement.mk Orientation.East 6 19,
      Placement.mk Orientation.West 6 19,
      Placement.mk Orientation.South 5 19] [] (airborneNeighbors cfgC1 (Placement.mk Orientation.North 1 19)) =
      [Placement.mk Orientation.North 0 19,
      Placement.mk Orientation.East 1 19,
      Placement.mk Orientation.West 1 19] := by decide
  have e13 : pushNews [Placement.mk Orientation.North 4 19,
      Placement.mk Orientation.North 3 19,
      Placement.mk Orientation.North 5 19,
      Placement.mk Orientation.East 4 19,
      Placement.mk Orientation.West 4 19,
      Placement.mk Orientation.North 2 19,
      Placement.mk Orientation.East 3 19,
      Placement.mk Orientation.West 3 19,
      Placement.mk Orientation.North 6 19,
      Placement.mk Orientation.East 5 19,
      Placement.mk Orientation.West 5 19,
      Placement.mk Orientation.South 4 19,
      Placement.mk Orientation.North 1 19,
      Placement.mk Orientation.East 2 19,
      Placement.mk Orientation.West 2 19,
      Placement.mk Orientation.South 3 19,
      Placement.mk Orientation.North 7 19,
      Placement.mk Orientation.East 6 19,
      Placement.mk Orientation.West 6 19,
      Placement.mk Orientation.South 5 19,
      Placement.mk Orientation.North 0 19,
      Placement.mk Orientation.East 1 19,
      Placement.mk Orientation.West 1 19] [] (airborneNeighbors cfgC1 (Placement.mk Orientation.East 2 19)) =
      [Placement.mk Orientation.South 2 19] := by decide
  have e14 : pushNews [Placement.mk Orientation.North 4 19,
      Placement.mk Orientation.North 3 19,
      Placement.mk Orientation.North 5 19,
      Placement.mk Orientation.East 4 19,
      Placement.mk Orientation.West 4 19,
      Placement.mk Orientation.North 2 19,
      Placement.mk Orientation.East 3 19,
      Placement.mk Orientation.West 3 19,
      Placement.mk Orientation.North 6 19,
      Placement.mk Orientation.East 5 19,
      Placement.mk Orientation.West 5 19,
      Placement.mk Orientation.South 4 19,
      Placement.mk Orientation.North 1 19,
      Placement.mk Orientation.East 2 19,
      Placement.mk Orientation.West 2 19,
      Placement.mk Orientation.South 3 19,
      Placement.mk Orientation.North 7 19,
      Placement.mk Orientation.East 6 19,
      Placement.mk Orientation.West 6 19,
      Placement.mk Orientation.South 5 19,
      Placement.mk Orientation.North 0 19,
      Placement.mk Orientation.East 1 19,
      Placement.mk Orientation.West 1 19,
      Placement.mk Orientation.South 2 19] [] (airborneNeighbors cfgC1 (Placement.mk Orientation.West 2 19)) =
      [] := by decide
  have e15 : pushNews [Placement.mk Orientation.North 4 19,
      Placement.mk Orientation.North 3 19,
      Placement.mk Orientation.North 5 19,
      Placement.mk Orientation.East 4 19,
      Placement.mk Orientation.West 4 19,
      Placement.mk Orientation.North 2 19,
      Placement.mk Orientation.East 3 19,
      Placement.mk Orientation.West 3 19,
      Placement.mk Orientation.North 6 19,
      Placement.mk Orientation.East 5 19,
      Placement.mk Orientation.West 5 19,
      Placement.mk Orientation.South 4 19,
      Placement.mk Orientation.North 1 19,
      Placement.mk Orientation.East 2 19,
      Placement.mk Orientation.West 2 19,
      Placement.mk Orientation.South 3 19,
      Placement.mk Orientation.North 7 19,
      Placement.mk Orientation.East 6 19,
      Placement.mk Orientation.West 6 19,
      Placement.mk Orientation.South 5 19,
      Placement.mk Orientation.North 0 19,
      Placement.mk Orientation.East 1 19,
      Placement.mk Orientation.West 1 19,
      Placement.mk Orientation.South 2 19] [] (airborneNeighbors cfgC1 (Placement.mk Orientation.South 3 19)) =
      [] := by decide
  have e16 : pushNews [Placement.mk Orientation.North 4 19,
      Placement.mk Orientation.North 3 19,
      Placement.mk Orientation.North 5 19,
      Placement.mk Orientation.East 4 19,
      Placement.mk Orientation.West 4 19,
      Placement.mk Orientation.North 2 19,
      Placement.mk Orientation.East 3 19,
      Placement.mk Orientation.West 3 19,
      Placement.mk Orientation.North 6 19,
      Placement.mk Orientation.East 5 19,
      Placement.mk Orientation.West 5 19,
      Placement.mk Orientation.South 4 19,
      Placement.mk Orientation.North 1 19,
      Placement.mk Orientation.East 2 19,
      Placement.mk Orientation.West 2 19,
      Placement.mk Orientation.South 3 19,
      Placement.mk Orientation.North 7 19,
      Placement.mk Orientation.East 6 19,
      Placement.mk Orientation.West 6 19,
      Placement.mk Orientation.South 5 19,
      Placement.mk Orientation.North 0 19,
      Placement.mk Orientation.East 1 19,
      Placement.mk Orientation.West 1 19,
      Placement.mk Orientation.South 2 19] [] (airborneNeighbors cfgC1 (Placement.mk Orientation.North 7 19)) =
      [Placement.mk Orientation.East 7 19,
      Placement.mk Orientation.West 7 19] := by decide
  have e17 : pushNews [Placement.mk Orientation.North 4 19,
      Placement.mk Orientation.North 3 19,
      Placement.mk Orientation.North 5 19,
      Placement.mk Orientation.East 4 19,
      Placement.mk Orientation.West 4 19,
      Placement.mk Orientation.North 2 19,
      Placement.mk Orientation.East 3 19,
      Placement.mk Orientation.West 3 19,
      Placement.mk Orientation.North 6 19,
      Placement.mk Orientation.East 5 19,
      Placement.mk Orientation.West 5 19,
      Placement.mk Orientation.South 4 19,
      Placement.mk Orientation.North 1 19,
      Placement.mk Orientation.East 2 19,
      Placement.mk Orientation.West 2 19,
      Placement.mk Orientation.South 3 19,
      Placement.mk Orientation.North 7 19,
      Placement.mk Orientation.East 6 19,
      Placement.mk Orientation.West 6 19,
      Placement.mk Orientation.South 5 19,
      Placement.mk Orientation.North 0 19,
      Placement.mk Orientation.East 1 19,
      Placement.mk Orientation.West 1 19,
      Placement.mk Orientation.South 2 19,
      Placement.mk Orientation.East 7 19,
      Placement.mk Orientation.West 7 19] [] (airborneNeighbors cfgC1 (Placement.mk Orientation.East 6 19)) =
      [Placement.mk Orientation.South 6 19] := by decide
  have e18 : pushNews [Placement.mk Orientation.North 4 19,
      Placement.mk Orientation.North 3 19,
      Placement.mk Orientation.North 5 19,
      Placement.mk Orientation.East 4 19,
      Placement.mk Orientation.West 4 19,
      Placement.mk Orientation.North 2 19,
      Placement.mk Orientation.East 3 19,
      Placement.mk Orientation.West 3 19,
      Placement.mk Orientation.North 6 19,
      Placement.mk Orientation.East 5 19,
      Placement.mk Orientation.West 5 19,
      Placement.mk Orientation.South 4 19,
      Placement.mk Orientation.North 1 19,
      Placement.mk Orientation.East 2 19,
      Placement.mk Orientation.West 2 19,
      Placement.mk Orientation.South 3 19,
      Placement.mk Orientation.North 7 19,
      Placement.mk Orientation.East 6 19,
      Placement.mk Orientation.West 6 19,
      Placement.mk Orientation.South 5 19,
      Placement.mk Orientation.North 0 19,
      Placement.mk Orientation.East 1 19,
      Placement.mk Orientation.West 1 19,
      Placement.mk Orientation.South 2 19,
      Placement.mk Orientation.East 7 19,
      Placement.mk Orientation.West 7 19,
      Placement.mk Orientation.South 6 19] [] (airborneNeighbors cfgC1 (Placement.mk Orientation.West 6 19)) =
      [] := by decide
  have e19 : pushNews [Placement.mk Orientation.North 4 19,
      Placement.mk Orientation.North 3 19,
      Placement.mk Orientation.North 5 19,
      Placement.mk Orientation.East 4 19,
      Placement.mk Orientation.West 4 19,
      Placement.mk Orientation.North 2 19,
      Placement.mk Orientation.East 3 19,
      Placement.mk Orientation.West 3 19,
      Placement.mk Orientation.North 6 19,
      Placement.mk Orientation.East 5 19,
      Placement.mk Orientation.West 5 19,
      Placement.mk Orientation.South 4 19,
      Placement.mk Orientation.North 1 19,
      Placement.mk Orientation.East 2 19,
      Placement.mk Orientation.West 2 19,
      Placement.mk Orientation.South 3 19,
      Placement.mk Orientation.North 7 19,
      Placement.mk Orientation.East 6 19,
      Placement.mk Orientation.West 6 19,
      Placement.mk Orientation.South 5 19,
      Placement.mk Orientation.North 0 19,
      Placement.mk Orientation.East 1 19,
      Placement.mk Orientation.West 1 19,
      Placement.mk Orientation.South 2 19,
      Placement.mk Orientation.East 7 19,
      Placement.mk Orientation.West 7 19,
      Placement.mk Orientation.South 6 19] [] (airborneNeighbors cfgC1 (Placement.mk Orientation.South 5 19)) =
      [] := by decide
  have e20 : pushNews [Placement.mk Orientation.North 4 19,
      Placement.mk Orientation.North 3 19,
      Placement.mk Orientation.North 5 19,
      Placement.mk Orientation.East 4 19,
      Placement.mk Orientation.West 4 19,
      Placement.mk Orientation.North 2 19,
      Placement.mk Orientation.East 3 19,
      Placement.mk Orientation.West 3 19,
      Placement.mk Orientation.North 6 19,
      Placement.mk Orientation.East 5 19,
      Placement.mk Orientation.West 5 19,
      Placement.mk Orientation.South 4 19,
      Placement.mk Orientation.North 1 19,
      Placement.mk Orientation.East 2 19,
      Placement.mk Orientation.West 2 19,
      Placement.mk Orientation.South 3 19,
      Placement.mk Orientation.North 7 19,
      Placement.mk Orientation.East 6 19,
      Placement.mk Orientation.West 6 19,
      Placement.mk Orientation.South 5 19,
      Placement.mk Orientation.North 0 19,
      Placement.mk Orientation.East 1 19,
      Placement.mk Orientation.West 1 19,
      Placement.mk Orientation.South 2 19,
      Placement.mk Orientation.East 7 19,
      Placement.mk Orientation.West 7 19,
      Placement.mk Orientation.South 6 19] [] (airborneNeighbors cfgC1 (Placement.mk Orientation.North 0 19)) =
      [Placement.mk Orientation.East 0 19,
      Placement.mk Orientation.West 0 19] := by decide
  have e21 : pushNews [Placement.mk Orientation.North 4 19,
      Placement.mk Orientation.North 3 19,
      Placement.mk Orientation.North 5 19,
      Placement.mk Orientation.East 4 19,
      Placement.mk Orientation.West 4 19,
      Placement.mk Orientation.North 2 19,
      Placement.mk Orientation.East 3 19,
      Placement.mk Orientation.West 3 19,
      Placement.mk Orientation.North 6 19,
      Placement.mk Orientation.East 5 19,
      Placement.mk Orientation.West 5 19,
      Placement.mk Orientation.South 4 19,
      Placement.mk Orientation.North 1 19,
      Placement.mk Orientation.East 2 19,
      Placement.mk Orientation.West 2 19,
      Placement.mk Orientation.South 3 19,
      Placement.mk Orientation.North 7 19,
      Placement.mk Orientation.East 6 19,
      Placement.mk Orientation.West 6 19,
      Placement.mk Orientation.South 5 19,
      Placement.mk Orientation.North 0 19,
      Placement.mk Orientation.East 1 19,
      Placement.mk Orientation.West 1 19,
      Placement.mk Orientation.South 2 19,
      Placement.mk Orientation.East 7 19,
      Placement.mk Orientation.West 7 19,
      Placement.mk Orientation.South 6 19,
      Placement.mk Orientation.East 0 19,
      Placement.mk Orientation.West 0 19] [] (airborneNeighbors cfgC1 (Placement.mk Orientation.East 1 19)) =
      [Placement.mk Orientation.South 1 19] := by decide
  have e22 : pushNews [Placement.mk Orientation.North 4 19,
      Placement.mk Orientation.North 3 19,
      Placement.mk Orientation.North 5 19,
      Placement.mk Orientation.East 4 19,
      Placement.mk Orientation.West 4 19,
      Placement.mk Orientation.North 2 19,
      Placement.mk Orientation.East 3 19,
      Placement.mk Orientation.West 3 19,
      Placement.mk Orientation.North 6 19,
      Placement.mk Orientation.East 5 19,
      Placement.mk Orientation.West 5 19,
      Placement.mk Orientation.South 4 19,
      Placement.mk Orientation.North 1 19,
      Placement.mk Orientation.East 2 19,
      Placement.mk Orientation.West 2 19,
      Placement.mk Orientation.South 3 19,
      Placement.mk Orientation.North 7 19,
      Placement.mk Orientation.East 6 19,
      Placement.mk Orientation.West 6 19,
      Placement.mk Orientation.South 5 19,
      Placement.mk Orientation.North 0 19,
      Placement.mk Orientation.East 1 19,
      Placement.mk Orientation.West 1 19,
      Placement.mk Orientation.South 2 19,
      Placement.mk Orientation.East 7 19,
      Placement.mk Orientation.West 7 19,
      Placement.mk Orientation.South 6 19,
      Placement.mk Orientation.East 0 19,
      Placement.mk Orientation.West 0 19,
      Placement.mk Orientation.South 1 19] [] (airborneNeighbors cfgC1 (Placement.mk Orientation.West 1 19)) =
      [] := by decide
  have e23 : pushNews [Placement.mk Orientation.North 4 19,
      Placement.mk Orientation.North 3 19,
      Placement.mk Orientation.North 5 19,
      Placement.mk Orientation.East 4 19,
      Placement.mk Orientation.West 4 19,
      Placement.mk Orientation.North 2 19,
      Placement.mk Orientation.East 3 19,
      Placement.mk Orientation.West 3 19,
      Placement.mk Orientation.North 6 19,
      Placement.mk Orientation.East 5 19,
      Placement.mk Orientation.West 5 19,
      Placement.mk Orientation.South 4 19,
      Placement.mk Orientation.North 1 19,
      Placement.mk Orientation.East 2 19,
      Placement.mk Orientation.West 2 19,
      Placement.mk Orientation.South 3 19,
      Placement.mk Orientation.North 7 19,
      Placement.mk Orientation.East 6 19,
      Placement.mk Orientation.West 6 19,
      Placement.mk Orientation.South 5 19,
      Placement.mk Orientation.North 0 19,
      Placement.mk Orientation.East 1 19,
      Placement.mk Orientation.West 1 19,
      Placement.mk Orientation.South 2 19,
      Placement.mk Orientation.East 7 19,
      Placement.mk Orientation.West 7 19,
      Placement.mk Orientation.South 6 19,
      Placement.mk Orientation.East 0 19,
      Placement.mk Orientation.West 0 19,
      Placement.mk Orientation.South 1 19] [] (airborneNeighbors cfgC1 (Placement.mk Orientation.South 2 19)) =
      [] := by decide
  have e24 : pushNews [Placement.mk Orientation.North 4 19,
      Placement.mk Orientation.North 3 19,
      Placement.mk Orientation.North 5 19,
      Placement.mk Orientation.East 4 19,
      Placement.mk Orientation.West 4 19,
      Placement.mk Orientation.North 2 19,
      Placement.mk Orientation.East 3 19,
      Placement.mk Orientation.West 3 19,
      Placement.mk Orientation.North 6 19,
      Placement.mk Orientation.East 5 19,
      Placement.mk Orientation.West 5 19,
      Placement.mk Orientation.South 4 19,
      Placement.mk Orientation.North 1 19,
      Placement.mk Orientation.East 2 19,
      Placement.mk Orientation.West 2 19,
      Placement.mk Orientation.South 3 19,
      Placement.mk Orientation.North 7 19,
      Placement.mk Orientation.East 6 19,
      Placement.mk Orientation.West 6 19,
      Placement.mk Orientation.South 5 19,
      Placement.mk Orientation.North 0 19,
      Placement.mk Orientation.East 1 19,
      Placement.mk Orientation.West 1 19,
      Placement.mk Orientation.South 2 19,
      Placement.mk Orientation.East 7 19,
      Placement.mk Orientation.West 7 19,
      Placement.mk Orientation.South 6 19,
      Placement.mk Orientation.East 0 19,
      Placement.mk Orientation.West 0 19,
      Placement.mk Orientation.South 1 19] [] (airborneNeighbors cfgC1 (Placement.mk Orientation.East 7 19)) =
      [Placement.mk Orientation.South 7 19] := by decide
  have e25 : pushNews [Placement.mk Orientation.North 4 19,
      Placement.mk Orientation.North 3 19,
      Placement.mk Orientation.North 5 19,
      Placement.mk Orientation.East 4 19,
      Placement.mk Orientation.West 4 19,
      Placement.mk Orientation.North 2 19,
      Placement.mk Orientation.East 3 19,
      Placement.mk Orientation.West 3 19,
      Placement.mk Orientation.North 6 19,
      Placement.mk Orientation.East 5 19,
      Placement.mk Orientation.West 5 19,
      Placement.mk Orientation.South 4 19,
      Placement.mk Orientation.North 1 19,
      Placement.mk Orientation.East 2 19,
      Placement.mk Orientation.West 2 19,
      Placement.mk Orientation.South 3 19,
      Placement.mk Orientation.North 7 19,
      Placement.mk Orientation.East 6 19,
      Placement.mk Orientation.West 6 19,
      Placement.mk Orientation.South 5 19,
      Placement.mk Orientation.North 0 19,
      Placement.mk Orientation.East 1 19,
      Placement.mk Orientation.West 1 19,
      Placement.mk Orientation.South 2 19,
      Placement.mk Orientation.East 7 19,
      Placement.mk Orientation.West 7 19,
      Placement.mk Orientation.South 6 19,
      Placement.mk Orientation.East 0 19,
      Placement.mk Orientation.West 0 19,
      Placement.mk Orientation.South 1 19,
      Placement.mk Orientation.South 7 19] [] (airborneNeighbors cfgC1 (Placement.mk Orientation.West 7 19)) =
      [Placement.mk Orientation.West 8 19] := by decide
  have e26 : pushNews [Placement.mk Orientation.North 4 19,
      Placement.mk Orientation.North 3 19,
      Placement.mk Orientation.North 5 19,
      Placement.mk Orientation.East 4 19,
      Placement.mk Orientation.West 4 19,
      Placement.mk Orientation.North 2 19,
      Placement.mk Orientation.East 3 19,
      Placement.mk Orientation.West 3 19,
      Placement.mk Orientation.North 6 19,
      Placement.mk Orientation.East 5 19,
      Placement.mk Orientation.West 5 19,
      Placement.mk Orientation.South 4 19,
      Placement.mk Orientation.North 1 19,
      Placement.mk Orientation.East 2 19,
      Placement.mk Orientation.West 2 19,
      Placement.mk Orientation.South 3 19,
      Placement.mk Orientation.North 7 19,
      Placement.mk Orientation.East 6 19,
      Placement.mk Orientation.West 6 19,
      Placement.mk Orientation.South 5 19,
      Placement.mk Orientation.North 0 19,
      Placement.mk Orientation.East 1 19,
      Placement.mk Orientation.West 1 19,
      Placement.mk Orientation.South 2 19,
      Placement.mk Orientation.East 7 19,
      Placement.mk Orientation.West 7 19,
      Placement.mk Orientation.South 6 19,
      Placement.mk Orientation.East 0 19,
      Placement.mk Orientation.West 0 19,
      Placement.mk Orientation.South 1 19,
      Placement.mk Orientation.South 7 19,
      Placement.mk Orientation.West 8 19] [] (airborneNeighbors cfgC1 (Placement.mk Orientation.South 6 19)) =
      [] := by decide
  have e27 : pushNews [Placement.mk Orientation.North 4 19,
      Placement.mk Orientation.North 3 19,
      Placement.mk Orientation.North 5 19,
      Placement.mk Orientation.East 4 19,
      Placement.mk Orientation.West 4 19,
      Placement.mk Orientation.North 2 19,
      Placement.mk Orientation.East 3 19,
      Placement.mk Orientation.West 3 19,
      Placement.mk Orientation.North 6 19,
      Placement.mk Orientation.East 5 19,
      Placement.mk Orientation.West 5 19,
      Placement.mk Orientation.South 4 19,
      Placement.mk Orientation.North 1 19,
      Placement.mk Orientation.East 2 19,
      Placement.mk Orientation.West 2 19,
      Placement.mk Orientation.South 3 19,
      Placement.mk Orientation.North 7 19,
      Placement.mk Orientation.East 6 19,
      Placement.mk Orientation.West 6 19,
      Placement.mk Orientation.South 5 19,
      Placement.mk Orientation.North 0 19,
      Placement.mk Orientation.East 1 19,
      Placement.mk Orientation.West 1 19,
      Placement.mk Orientation.South 2 19,
      Placement.mk Orientation.East 7 19,
      Placement.mk Orientation.West 7 19,
      Placement.mk Orientation.South 6 19,
      Placement.mk Orientation.East 0 19,
      Placement.mk Orientation.West 0 19,
      Placement.mk Orientation.South 1 19,
      Placement.mk Orientation.South 7 19,
      Placement.mk Orientation.West 8 19] [] (airborneNeighbors cfgC1 (Placement.mk Orientation.East 0 19)) =
      [Placement.mk Orientation.East (-1) 19,
      Placement.mk Orientation.South 0 19] := by decide
  have e28 : pushNews [Placement.mk Orientation.North 4 19,
      Placement.mk Orientation.North 3 19,
      Placement.mk Orientation.North 5 19,
      Placement.mk Orientation.East 4 19,
      Placement.mk Orientation.West 4 19,
      Placement.mk Orientation.North 2 19,
      Placement.mk Orientation.East 3 19,
      Placement.mk Orientation.West 3 19,
      Placement.mk Orientation.North 6 19,
      Placement.mk Orientation.East 5 19,
      Placement.mk Orientation.West 5 19,
      Placement.mk Orientation.South 4 19,
      Placement.mk Orientation.North 1 19,
      Placement.mk Orientation.East 2 19,
      Placement.mk Orientation.West 2 19,
      Placement.mk Orientation.South 3 19,
      Placement.mk Orientation.North 7 19,
      Placement.mk Orientation.East 6 19,
      Placement.mk Orientation.West 6 19,
      Placement.mk Orientation.South 5 19,
      Placement.mk Orientation.North 0 19,
      Placement.mk Orientation.East 1 19,
      Placement.mk Orientation.West 1 19,
      Placement.mk Orientation.South 2 19,
      Placement.mk Orientation.East 7 19,
      Placement.mk Orientation.West 7 19,
      Placement.mk Orientation.South 6 19,
      Placement.mk Orientation.East 0 19,
      Placement.mk Orientation.West 0 19,
      Placement.mk Orientation.South 1 19,
      Placement.mk Orientation.South 7 19,
      Placement.mk Orientation.West 8 19,
      Placement.mk Orientation.East (-1) 19,
      Placement.mk Orientation.South 0 19] [] (airborneNeighbors cfgC1 (Placement.mk Orientation.West 0 19)) =
      [] := by decide
  have e29 : pushNews [Placement.mk Orientation.North 4 19,
      Placement.mk Orientation.North 3 19,
      Placement.mk Orientation.North 5 19,
      Placement.mk Orientation.East 4 19,
      Placement.mk Orientation.West 4 19,
      Placement.mk Orientation.North 2 19,
      Placement.mk Orientation.East 3 19,
      Placement.mk Orientation.West 3 19,
      Placement.mk Orientation.North 6 19,
      Placement.mk Orientation.East 5 19,
      Placement.mk Orientation.West 5 19,
      Placement.mk Orientation.South 4 19,
      Placement.mk Orientation.North 1 19,
      Placement.mk Orientation.East 2 19,
      Placement.mk Orientation.West 2 19,
      Placement.mk Orientation.South 3 19,
      Placement.mk Orientation.North 7 19,
      Placement.mk Orientation.East 6 19,
      Placement.mk Orientation.West 6 19,
      Placement.mk Orientation.South 5 19,
      Placement.mk Orientation.North 0 19,
      Placement.mk Orientation.East 1 19,
      Placement.mk Orientation.West 1 19,
      Placement.mk Orientation.South 2 19,
      Placement.mk Orientation.East 7 19,
      Placement.mk Orientation.West 7 19,
      Placement.mk Orientation.South 6 19,
      Placement.mk Orientation.East 0 19,
      Placement.mk Orientation.West 0 19,
      Placement.mk Orientation.South 1 19,
      Placement.mk Orientation.South 7 19,
      Placement.mk Orientation.West 8 19,
      Placement.mk Orientation.East (-1) 19,
      Placement.mk Orientation.South 0 19] [] (airborneNeighbors cfgC1 (Placement.mk Orientation.South 1 19)) =
      [] := by decide
  have e30 : pushNews [Placement.mk Orientation.North 4 19,
      Placement.mk Orientation.North 3 19,
      Placement.mk Orientation.North 5 19,
      Placement.mk Orientation.East 4 19,
      Placement.mk Orientation.West 4 19,
      Placement.mk Orientation.North 2 19,
      Placement.mk Orientation.East 3 19,
      Placement.mk Orientation.West 3 19,
      Placement.mk Orientation.North 6 19,
      Placement.mk Orientation.East 5 19,
      Placement.mk Orientation.West 5 19,
      Placement.mk Orientation.South 4 19,
      Placement.mk Orientation.North 1 19,
      Placement.mk Orientation.East 2 19,
      Placement.mk Orientation.West 2 19,
      Placement.mk Orientation.South 3 19,
      Placement.mk Orientation.North 7 19,
      Placement.mk Orientation.East 6 19,
      Placement.mk Orientation.West 6 19,
      Placement.mk Orientation.South 5 19,
      Placement.mk Orientation.North 0 19,
      Placement.mk Orientation.East 1 19,
      Placement.mk Orientation.West 1 19,
      Placement.mk Orientation.South 2 19,
      Placement.mk Orientation.East 7 19,
      Placement.mk Orientation.West 7 19,
      Placement.mk Orientation.South 6 19,
      Placement.mk Orientation.East 0 19,
      Placement.mk Orientation.West 0 19,
      Placement.mk Orientation.South 1 19,
      Placement.mk Orientation.South 7 19,
      Placement.mk Orientation.West 8 19,
      Placement.mk Orientation.East (-1) 19,
      Placement.mk Orientation.South 0 19] [] (airborneNeighbors cfgC1 (Placement.mk Orientation.South 7 19)) =
      [] := by decide
  have e31 : pushNews [Placement.mk Orientation.North 4 19,
      Placement.mk Orientation.North 3 19,
      Placement.mk Orientation.North 5 19,
      Placement.mk Orientation.East 4 19,
      Placement.mk Orientation.West 4 19,
      Placement.mk Orientation.North 2 19,
      Placement.mk Orientation.East 3 19,
      Placement.mk Orientation.West 3 19,
      Placement.mk Orientation.North 6 19,
      Placement.mk Orientation.East 5 19,
      Placement.mk Orientation.West 5 19,
      Placement.mk Orientation.South 4 19,
      Placement.mk Orientation.North 1 19,
      Placement.mk Orientation.East 2 19,
      Placement.mk Orientation.West 2 19,
      Placement.mk Orientation.South 3 19,
      Placement.mk Orientation.North 7 19,
      Placement.mk Orientation.East 6 19,
      Placement.mk Orientation.West 6 19,
      Placement.mk Orientation.South 5 19,
      Placement.mk Orientation.North 0 19,
      Placement.mk Orientation.East 1 19,
      Placement.mk Orientation.West 1 19,
      Placement.mk Orientation.South 2 19,
      Placement.mk Orientation.East 7 19,
      Placement.mk Orientation.West 7 19,
      Placement.mk Orientation.South 6 19,
      Placement.mk Orientation.East 0 19,
      Placement.mk Orientation.West 0 19,
      Placement.mk Orientation.South 1 19,
      Placement.mk Orientation.South 7 19,
      Placement.mk Orientation.West 8 19,
      Placement.mk Orientation.East (-1) 19,
      Placement.mk Orientation.South 0 19] [] (airborneNeighbors cfgC1 (Placement.mk Orientation.West 8 19)) =
      [] := by decide
  have e32 : pushNews [Placement.mk Orientation.North 4 19,
      Placement.mk Orientation.North 3 19,
      Placement.mk Orientation.North 5 19,
      Placement.mk Orientation.East 4 19,
      Placement.mk Orientation.West 4 19,
      Placement.mk Orientation.North 2 19,
      Placement.mk Orientation.East 3 19,
      Placement.mk Orientation.West 3 19,
      Placement.mk Orientation.North 6 19,
      Placement.mk Orientation.East 5 19,
      Placement.mk Orientation.West 5 19,
      Placement.mk Orientation.South 4 19,
      Placement.mk Orientation.North 1 19,
      Placement.mk Orientation.East 2 19,
      Placement.mk Orientation.West 2 19,
      Placement.mk Orientation.South 3 19,
      Placement.mk Orientation.North 7 19,
      Placement.mk Orientation.East 6 19,
      Placement.mk Orientation.West 6 19,
      Placement.mk Orientation.South 5 19,
      Placement.mk Orientation.North 0 19,
      Placement.mk Orientation.East 1 19,
      Placement.mk Orientation.West 1 19,
      Placement.mk Orientation.South 2 19,
      Placement.mk Orientation.East 7 19,
      Placement.mk Orientation.West 7 19,
      Placement.mk Orientation.South 6 19,
      Placement.mk Orientation.East 0 19,
      Placement.mk Orientation.West 0 19,
      Placement.mk Orientation.South 1 19,
      Placement.mk Orientation.South 7 19,
      Placement.mk Orientation.West 8 19,
      Placement.mk Orientation.East (-1) 19,
      Placement.mk Orientation.South 0 19] [] (airborneNeighbors cfgC1 (Placement.mk Orientation.East (-1) 19)) =
      [] := by decide
  have e33 : pushNews [Placement.mk Orientation.North 4 19,
      Placement.mk Orientation.North 3 19,
      Placement.mk Orientation.North 5 19,
      Placement.mk Orientation.East 4 19,
      Placement.mk Orientation.West 4 19,
      Placement.mk Orientation.North 2 19,
      Placement.mk Orientation.East 3 19,
      Placement.mk Orientation.West 3 19,
      Placement.mk Orientation.North 6 19,
      Placement.mk Orientation.East 5 19,
      Placement.mk Orientation.West 5 19,
      Placement.mk Orientation.South 4 19,
      Placement.mk Orientation.North 1 19,
      Placement.mk Orientation.East 2 19,
      Placement.mk Orientation.West 2 19,
      Placement.mk Orientation.South 3 19,
      Placement.mk Orientation.North 7 19,
      Placement.mk Orientation.East 6 19,
      Placement.mk Orientation.West 6 19,
      Placement.mk Orientation.South 5 19,
      Placement.mk Orientation.North 0 19,
      Placement.mk Orientation.East 1 19,
      Placement.mk Orientation.West 1 19,
      Placement.mk Orientation.South 2 19,
      Placement.mk Orientation.East 7 19,
      Placement.mk Orientation.West 7 19,
      Placement.mk Orientation.South 6 19,
      Placement.mk Orientation.East 0 19,
      Placement.mk Orientation.West 0 19,
      Placement.mk Orientation.South 1 19,
      Placement.mk Orientation.South 7 19,
      Placement.mk Orientation.West 8 19,
      Placement.mk Orientation.East (-1) 19,
      Placement.mk Orientation.South 0 19] [] (airborneNeighbors cfgC1 (Placement.mk Orientation.South 0 19)) =
      [] := by decide
  calc bfsAux (airborneNeighbors cfgC1) 40 [Placement.mk Orientation.North 4 19] [Placement.mk Orientation.North 4 19]
    _ = bfsAux (airborneNeighbors cfgC1) 39 [Placement.mk Orientation.North 4 19,
      Placement.mk Orientation.North 3 19,
      Placement.mk Orientation.North 5 19,
      Placement.mk Orientation.East 4 19,
      Placement.mk Orientation.West 4 19]
        [Placement.mk Orientation.North 3 19,
      Placement.mk Orientation.North 5 19,
      Placement.mk Orientation.East 4 19,
      Placement.mk Orientation.West 4 19] := by
      refine Eq.trans (bfsAux_succ_cons _ 39 _ _ _) ?_
      rw [e0]
      simp only [List.cons_append, List.nil_append]
    _ = bfsAux (airborneNeighbors cfgC1) 38 [Placement.mk Orientation.North 4 19,
      Placement.mk Orientation.North 3 19,
      Placement.mk Orientation.North 5 19,
      Placement.mk Orientation.East 4 19,
      Placement.mk Orientation.West 4 19,
      Placement.mk Orientation.North 2 19,
      Placement.mk Orientation.East 3 19,
      Placement.mk Orientation.West 3 19]
        [Placement.mk Orientation.North 5 19,
      Placement.mk Orientation.East 4 19,
      Placement.mk Orientation.West 4 19,
      Placement.mk Orientation.North 2 19,
      Placement.mk Orientation.East 3 19,
      Placement.mk Orientation.West 3 19] := by
      refine Eq.trans (bfsAux_succ_cons _ 38 _ _ _) ?_
      rw [e1]
      simp only [List.cons_append, List.nil_append]
    _ = bfsAux (airborneNeighbors cfgC1) 37 [Placement.mk Orientation.North 4 19,
      Placement.mk Orientation.North 3 19,
      Placement.mk Orientation.North 5 19,
      Placement.mk Orientation.East 4 19,
      Placement.mk Orientation.West 4 19,
      Placement.mk Orientation.North 2 19,
      Placement.mk Orientation.East 3 19,
      Placement.mk Orientation.West 3 19,
      Placement.mk Orientation.North 6 19,
      Placement.mk Orientation.East 5 19,
      Placement.mk Orientation.West 5 19]
        [Placement.mk Orientation.East 4 19,
      Placement.mk Orientation.West 4 19,
      Placement.mk Orientation.North 2 19,
      Placement.mk Orientation.East 3 19,
      Placement.mk Orientation.West 3 19,
      Placement.mk Orientation.North 6 19,
      Placement.mk Orientation.East 5 19,
      Placement.mk Orientation.West 5 19] := by
      refine Eq.trans (bfsAux_succ_cons _ 37 _ _ _) ?_
      rw [e2]
      simp only [List.cons_append, List.nil_append]
    _ = bfsAux (airborneNeighbors cfgC1) 36 [Placement.mk Orientation.North 4 19,
      Placement.mk Orientation.North 3 19,
      Placement.mk Orientation.North 5 19,
      Placement.mk Orientation.East 4 19,
      Placement.mk Orientation.West 4 19,
      Placement.mk Orientation.North 2 19,
      Placement.mk Orientation.East 3 19,
      Placement.mk Orientation.West 3 19,
      Placement.mk Orientation.North 6 19,
      Placement.mk Orientation.East 5 19,
      Placement.mk Orientation.West 5 19,
      Placement.mk Orientation.South 4 19]
        [Placement.mk Orientation.West 4 19,
      Placement.mk Orientation.North 2 19,
      Placement.mk Orientation.East 3 19,
      Placement.mk Orientation.West 3 19,
      Placement.mk Orientation.North 6 19,
      Placement.mk Orientation.East 5 19,
      Placement.mk Orientation.West 5 19,
      Placement.mk Orientation.South 4 19] := by
      refine Eq.trans (bfsAux_succ_cons _ 36 _ _ _) ?_
      rw [e3]
      simp only [List.cons_append, List.nil_append]
    _ = bfsAux (airborneNeighbors cfgC1) 35 [Placement.mk Orientation.North 4 19,
      Placement.mk Orientation.North 3 19,
      Placement.mk Orientation.North 5 19,
      Placement.mk Orientation.East 4 19,
      Placement.mk Orientation.West 4 19,
      Placement.mk Orientation.North 2 19,
      Placement.mk Orientation.East 3 19,
      Placement.mk Orientation.West 3 19,
      Placement.mk Orientation.North 6 19,
      Placement.mk Orientation.East 5 19,
      Placement.mk Orientation.West 5 19,
      Placement.mk Orientation.South 4 19]
        [Placement.mk Orientation.North 2 19,
      Placement.mk Orientation.East 3 19,
      Placement.mk Orientation.West 3 19,
      Placement.mk Orientation.North 6 19,
      Placement.mk Orientation.East 5 19,
      Placement.mk Orientation.West 5 19,
      Placement.mk Orientation.South 4 19] := by
      refine Eq.trans (bfsAux_succ_cons _ 35 _ _ _) ?_
      rw [e4]
      simp only [List.cons_append, List.nil_append]
    _ = bfsAux (airborneNeighbors cfgC1) 34 [Placement.mk Orientation.North 4 19,
      Placement.mk Orientation.North 3 19,
      Placement.mk Orientation.North 5 19,
      Placement.mk Orientation.East 4 19,
      Placement.mk Orientation.West 4 19,
      Placement.mk Orientation.North 2 19,
      Placement.mk Orientation.East 3 19,
      Placement.mk Orientation.West 3 19,
      Placement.mk Orientation.North 6 19,
      Placement.mk Orientation.East 5 19,
      Placement.mk Orientation.West 5 19,
      Placement.mk Orientation.South 4 19,
      Placement.mk Orientation.North 1 19,
      Placement.mk Orientation.East 2 19,
      Placement.mk Orientation.West 2 19]
        [Placement.mk Orientation.East 3 19,
      Placement.mk Orientation.West 3 19,
      Placement.mk Orientation.North 6 19,
      Placement.mk Orientation.East 5 19,
      Placement.mk Orientation.West 5 19,
      Placement.mk Orientation.South 4 19,
      Placement.mk Orientation.North 1 19,
      Placement.mk Orientation.East 2 19,
      Placement.mk Orientation.West 2 19] := by
      refine Eq.trans (bfsAux_succ_cons _ 34 _ _ _) ?_
      rw [e5]
      simp only [List.cons_append, List.nil_append]
    _ = bfsAux (airborneNeighbors cfgC1) 33 [Placement.mk Orientation.North 4 19,
      Placement.mk Orientation.North 3 19,
      Placement.mk Orientation.North 5 19,
      Placement.mk Orientation.East 4 19,
      Placement.mk Orientation.West 4 19,
      Placement.mk Orientation.North 2 19,
      Placement.mk Orientation.East 3 19,
      Placement.mk Orientation.West 3 19,
      Placement.mk Orientation.North 6 19,
      Placement.mk Orientation.East 5 19,
      Placement.mk Orientation.West 5 19,
      Placement.mk Orientation.South 4 19,
      Placement.mk Orientation.North 1 19,
      Placement.mk Orientation.East 2 19,
      Placement.mk Orientation.West 2 19,
      Placement.mk Orientation.South 3 19]
        [Placement.mk Orientation.West 3 19,
      Placement.mk Orientation.North 6 19,
      Placement.mk Orientation.East 5 19,
      Placement.mk Orientation.West 5 19,
      Placement.mk Orientation.South 4 19,
      Placement.mk Orientation.North 1 19,
      Placement.mk Orientation.East 2 19,
      Placement.mk Orientation.West 2 19,
      Placement.mk Orientation.South 3 19] := by
      refine Eq.trans (bfsAux_succ_cons _ 33 _ _ _) ?_
      rw [e6]
      simp only [List.cons_append, List.nil_append]
    _ = bfsAux (airborneNeighbors cfgC1) 32 [Placement.mk Orientation.North 4 19,
      Placement.mk Orientation.North 3 19,
      Placement.mk Orientation.North 5 19,
      Placement.mk Orientation.East 4 19,
      Placement.mk Orientation.West 4 19,
      Placement.mk Orientation.North 2 19,
      Placement.mk Orientation.East 3 19,
      Placement.mk Orientation.West 3 19,
      Placement.mk Orientation.North 6 19,
      Placement.mk Orientation.East 5 19,
      Placement.mk Orientation.West 5 19,
      Placement.mk Orientation.South 4 19,
      Placement.mk Orientation.North 1 19,
      Placement.mk Orientation.East 2 19,
      Placement.mk Orientation.West 2 19,
      Placement.mk Orientation.South 3 19]
        [Placement.mk Orientation.North 6 19,
      Placement.mk Orientation.East 5 19,
      Placement.mk Orientation.West 5 19,
      Placement.mk Orientation.South 4 19,
      Placement.mk Orientation.North 1 19,
      Placement.mk Orientation.East 2 19,
      Placement.mk Orientation.West 2 19,
      Placement.mk Orientation.South 3 19] := by
      refine Eq.trans (bfsAux_succ_cons _ 32 _ _ _) ?_
      rw [e7]
      simp only [List.cons_append, List.nil_append]
    _ = bfsAux (airborneNeighbors cfgC1) 31 [Placement.mk Orientation.North 4 19,
      Placement.mk Orientation.North 3 19,
      Placement.mk Orientation.North 5 19,
      Placement.mk Orientation.East 4 19,
      Placement.mk Orientation.West 4 19,
      Placement.mk Orientation.North 2 19,
      Placement.mk Orientation.East 3 19,
      Placement.mk Orientation.West 3 19,
      Placement.mk Orientation.North 6 19,
      Placement.mk Orientation.East 5 19,
      Placement.mk Orientation.West 5 19,
      Placement.mk Orientation.South 4 19,
      Placement.mk Orientation.North 1 19,
      Placement.mk Orientation.East 2 19,
      Placement.mk Orientation.West 2 19,
      Placement.mk Orientation.South 3 19,
      Placement.mk Orientation.North 7 19,
      Placement.mk Orientation.East 6 19,
      Placement.mk Orientation.West 6 19]
        [Placement.mk Orientation.East 5 19,
      Placement.mk Orientation.West 5 19,
      Placement.mk Orientation.South 4 19,
      Placement.mk Orientation.North 1 19,
      Placement.mk Orientation.East 2 19,
      Placement.mk Orientation.West 2 19,
      Placement.mk Orientation.South 3 19,
      Placement.mk Orientation.North 7 19,
      Placement.mk Orientation.East 6 19,
      Placement.mk Orientation.West 6 19] := by
      refine Eq.trans (bfsAux_succ_cons _ 31 _ _ _) ?_
      rw [e8]
      simp only [List.cons_append, List.nil_append]
    _ = bfsAux (airborneNeighbors cfgC1) 30 [Placement.mk Orientation.North 4 19,
      Placement.mk Orientation.North 3 19,
      Placement.mk Orientation.North 5 19,
      Placement.mk Orientation.East 4 19,
      Placement.mk Orientation.West 4 19,
      Placement.mk Orientation.North 2 19,
      Placement.mk Orientation.East 3 19,
      Placement.mk Orientation.West 3 19,
      Placement.mk Orientation.North 6 19,
      Placement.mk Orientation.East 5 19,
      Placement.mk Orientation.West 5 19,
      Placement.mk Orientation.South 4 19,
      Placement.mk Orientation.North 1 19,
      Placement.mk Orientation.East 2 19,
      Placement.mk Orientation.West 2 19,
      Placement.mk Orientation.South 3 19,
      Placement.mk Orientation.North 7 19,
      Placement.mk Orientation.East 6 19,
      Placement.mk Orientation.West 6 19,
      Placement.mk Orientation.South 5 19]
        [Placement.mk Orientation.West 5 19,
      Placement.mk Orientation.South 4 19,
      Placement.mk Orientation.North 1 19,
      Placement.mk Orientation.East 2 19,
      Placement.mk Orientation.West 2 19,
      Placement.mk Orientation.South 3 19,
      Placement.mk Orientation.North 7 19,
      Placement.mk Orientation.East 6 19,
      Placement.mk Orientation.West 6 19,
      Placement.mk Orientation.South 5 19] := by
      refine Eq.trans (bfsAux_succ_cons _ 30 _ _ _) ?_
      rw [e9]
      simp only [List.cons_append, List.nil_append]
    _ = bfsAux (airborneNeighbors cfgC1) 29 [Placement.mk Orientation.North 4 19,
      Placement.mk Orientation.North 3 19,
      Placement.mk Orientation.North 5 19,
      Placement.mk Orientation.East 4 19,
      Placement.mk Orientation.West 4 19,
      Placement.mk Orientation.North 2 19,
      Placement.mk Orientation.East 3 19,
      Placement.mk Orientation.West 3 19,
      Placement.mk Orientation.North 6 19,
      Placement.mk Orientation.East 5 19,
      Placement.mk Orientation.West 5 19,
      Placement.mk Orientation.South 4 19,
      Placement.mk Orientation.North 1 19,
      Placement.mk Orientation.East 2 19,
      Placement.mk Orientation.West 2 19,
      Placement.mk Orientation.South 3 19,
      Placement.mk Orientation.North 7 19,
      Placement.mk Orientation.East 6 19,
      Placement.mk Orientation.West 6 19,
      Placement.mk Orientation.South 5 19]
        [Placement.mk Orientation.South 4 19,
      Placement.mk Orientation.North 1 19,
      Placement.mk Orientation.East 2 19,
      Placement.mk Orientation.West 2 19,
      Placement.mk Orientation.South 3 19,
      Placement.mk Orientation.North 7 19,
      Placement.mk Orientation.East 6 19,
      Placement.mk Orientation.West 6 19,
      Placement.mk Orientation.South 5 19] := by
      refine Eq.trans (bfsAux_succ_cons _ 29 _ _ _) ?_
      rw [e10]
      simp only [List.cons_append, List.nil_append]
    _ = bfsAux (airborneNeighbors cfgC1) 28 [Placement.mk Orientation.North 4 19,
      Placement.mk Orientation.North 3 19,
      Placement.mk Orientation.North 5 19,
      Placement.mk Orientation.East 4 19,
      Placement.mk Orientation.West 4 19,
      Placement.mk Orientation.North 2 19,
      Placement.mk Orientation.East 3 19,
      Placement.mk Orientation.West 3 19,
      Placement.mk Orientation.North 6 19,
      Placement.mk Orientation.East 5 19,
      Placement.mk Orientation.West 5 19,
      Placement.mk Orientation.South 4 19,
      Placement.mk Orientation.North 1 19,
      Placement.mk Orientation.East 2 19,
      Placement.mk Orientation.West 2 19,
      Placement.mk Orientation.South 3 19,
      Placement.mk Orientation.North 7 19,
      Placement.mk Orientation.East 6 19,
      Placement.mk Orientation.West 6 19,
      Placement.mk Orientation.South 5 19]
        [Placement.mk Orientation.North 1 19,
      Placement.mk Orientation.East 2 19,
      Placement.mk Orientation.West 2 19,
      Placement.mk Orientation.South 3 19,
      Placement.mk Orientation.North 7 19,
      Placement.mk Orientation.East 6 19,
      Placement.mk Orientation.West 6 19,
      Placement.mk Orientation.South 5 19] := by
      refine Eq.trans (bfsAux_succ_cons _ 28 _ _ _) ?_
      rw [e11]
      simp only [List.cons_append, List.nil_append]
    _ = bfsAux (airborneNeighbors cfgC1) 27 [Placement.mk Orientation.North 4 19,
      Placement.mk Orientation.North 3 19,
      Placement.mk Orientation.North 5 19,
      Placement.mk Orientation.East 4 19,
      Placement.mk Orientation.West 4 19,
      Placement.mk Orientation.North 2 19,
      Placement.mk Orientation.East 3 19,
      Placement.mk Orientation.West 3 19,
      Placement.mk Orientation.North 6 19,
      Placement.mk Orientation.East 5 19,
      Placement.mk Orientation.West 5 19,
      Placement.mk Orientation.South 4 19,
      Placement.mk Orientation.North 1 19,
      Placement.mk Orientation.East 2 19,
      Placement.mk Orientation.West 2 19,
      Placement.mk Orientation.South 3 19,
      Placement.mk Orientation.North 7 19,
      Placement.mk Orientation.East 6 19,
      Placement.mk Orientation.West 6 19,
      Placement.mk Orientation.South 5 19,
      Placement.mk Orientation.North 0 19,
      Placement.mk Orientation.East 1 19,
      Placement.mk Orientation.West 1 19]
        [Placement.mk Orientation.East 2 19,
      Placement.mk Orientation.West 2 19,
      Placement.mk Orientation.South 3 19,
      Placement.mk Orientation.North 7 19,
      Placement.mk Orientation.East 6 19,
      Placement.mk Orientation.West 6 19,
      Placement.mk Orientation.South 5 19,
      Placement.mk Orientation.North 0 19,
      Placement.mk Orientation.East 1 19,
      Placement.mk Orientation.West 1 19] := by
      refine Eq.trans (bfsAux_succ_cons _ 27 _ _ _) ?_
      rw [e12]
      simp only [List.cons_append, List.nil_append]
    _ = bfsAux (airborneNeighbors cfgC1) 26 [Placement.mk Orientation.North 4 19,
      Placement.mk Orientation.North 3 19,
      Placement.mk Orientation.North 5 19,
      Placement.mk Orientation.East 4 19,
      Placement.mk Orientation.West 4 19,
      Placement.mk Orientation.North 2 19,
      Placement.mk Orientation.East 3 19,
      Placement.mk Orientation.West 3 19,
      Placement.mk Orientation.North 6 19,
      Placement.mk Orientation.East 5 19,
      Placement.mk Orientation.West 5 19,
      Placement.mk Orientation.South 4 19,
      Placement.mk Orientation.North 1 19,
      Placement.mk Orientation.East 2 19,
      Placement.mk Orientation.West 2 19,
      Placement.mk Orientation.South 3 19,
      Placement.mk Orientation.North 7 19,
      Placement.mk Orientation.East 6 19,
      Placement.mk Orientation.West 6 19,
      Placement.mk Orientation.South 5 19,
      Placement.mk Orientation.North 0 19,
      Placement.mk Orientation.East 1 19,
      Placement.mk Orientation.West 1 19,
      Placement.mk Orientation.South 2 19]
        [Placement.mk Orientation.West 2 19,
      Placement.mk Orientation.South 3 19,
      Placement.mk Orientation.North 7 19,
      Placement.mk Orientation.East 6 19,
      Placement.mk Orientation.West 6 19,
      Placement.mk Orientation.South 5 19,
      Placement.mk Orientation.North 0 19,
      Placement.mk Orientation.East 1 19,
      Placement.mk Orientation.West 1 19,
      Placement.mk Orientation.South 2 19] := by
      refine Eq.trans (bfsAux_succ_cons _ 26 _ _ _) ?_
      rw [e13]
      simp only [List.cons_append, List.nil_append]
    _ = bfsAux (airborneNeighbors cfgC1) 25 [Placement.mk Orientation.North 4 19,
      Placement.mk Orientation.North 3 19,
      Placement.mk Orientation.North 5 19,
      Placement.mk Orientation.East 4 19,
      Placement.mk Orientation.West 4 19,
      Placement.mk Orientation.North 2 19,
      Placement.mk Orientation.East 3 19,
      Placement.mk Orientation.West 3 19,
      Placement.mk Orientation.North 6 19,
      Placement.mk Orientation.East 5 19,
      Placement.mk Orientation.West 5 19,
      Placement.mk Orientation.South 4 19,
      Placement.mk Orientation.North 1 19,
      Placement.mk Orientation.East 2 19,
      Placement.mk Orientation.West 2 19,
      Placement.mk Orientation.South 3 19,
      Placement.mk Orientation.North 7 19,
      Placement.mk Orientation.East 6 19,
      Placement.mk Orientation.West 6 19,
      Placement.mk Orientation.South 5 19,
      Placement.mk Orientation.North 0 19,
      Placement.mk Orientation.East 1 19,
      Placement.mk Orientation.West 1 19,
      Placement.mk Orientation.South 2 19]
        [Placement.mk Orientation.South 3 19,
      Placement.mk Orientation.North 7 19,
      Placement.mk Orientation.East 6 19,
      Placement.mk Orientation.West 6 19,
      Placement.mk Orientation.South 5 19,
      Placement.mk Orientation.North 0 19,
      Placement.mk Orientation.East 1 19,
      Placement.mk Orientation.West 1 19,
      Placement.mk Orientation.South 2 19] := by
      refine Eq.trans (bfsAux_succ_cons _ 25 _ _ _) ?_
      rw [e14]
      simp only [List.cons_append, List.nil_append]
    _ = bfsAux (airborneNeighbors cfgC1) 24 [Placement.mk Orientation.North 4 19,
      Placement.mk Orientation.North 3 19,
      Placement.mk Orientation.North 5 19,
      Placement.mk Orientation.East 4 19,
      Placement.mk Orientation.West 4 19,
      Placement.mk Orientation.North 2 19,
      Placement.mk Orientation.East 3 19,
      Placement.mk Orientation.West 3 19,
      Placement.mk Orientation.North 6 19,
      Placement.mk Orientation.East 5 19,
      Placement.mk Orientation.West 5 19,
      Placement.mk Orientation.South 4 19,
      Placement.mk Orientation.North 1 19,
      Placement.mk Orientation.East 2 19,
      Placement.mk Orientation.West 2 19,
      Placement.mk Orientation.South 3 19,
      Placement.mk Orientation.North 7 19,
      Placement.mk Orientation.East 6 19,
      Placement.mk Orientation.West 6 19,
      Placement.mk Orientation.South 5 19,
      Placement.mk Orientation.North 0 19,
      Placement.mk Orientation.East 1 19,
      Placement.mk Orientation.West 1 19,
      Placement.mk Orientation.South 2 19]
        [Placement.mk Orientation.North 7 19,
      Placement.mk Orientation.East 6 19,
      Placement.mk Orientation.West 6 19,
      Placement.mk Orientation.South 5 19,
      Placement.mk Orientation.North 0 19,
      Placement.mk Orientation.East 1 19,
      Placement.mk Orientation.West 1 19,
      Placement.mk Orientation.South 2 19] := by
      refine Eq.trans (bfsAux_succ_cons _ 24 _ _ _) ?_
      rw [e15]
      simp only [List.cons_append, List.nil_append]
    _ = bfsAux (airborneNeighbors cfgC1) 23 [Placement.mk Orientation.North 4 19,
      Placement.mk Orientation.North 3 19,
      Placement.mk Orientation.North 5 19,
      Placement.mk Orientation.East 4 19,
      Placement.mk Orientation.West 4 19,
      Placement.mk Orientation.North 2 19,
      Placement.mk Orientation.East 3 19,
      Placement.mk Orientation.West 3 19,
      Placement.mk Orientation.North 6 19,
      Placement.mk Orientation.East 5 19,
      Placement.mk Orientation.West 5 19,
      Placement.mk Orientation.South 4 19,
      Placement.mk Orientation.North 1 19,
      Placement.mk Orientation.East 2 19,
      Placement.mk Orientation.West 2 19,
      Placement.mk Orientation.South 3 19,
      Placement.mk Orientation.North 7 19,
      Placement.mk Orientation.East 6 19,
      Placement.mk Orientation.West 6 19,
      Placement.mk Orientation.South 5 19,
      Placement.mk Orientation.North 0 19,
      Placement.mk Orientation.East 1 19,
      Placement.mk Orientation.West 1 19,
      Placement.mk Orientation.South 2 19,
      Placement.mk Orientation.East 7 19,
      Placement.mk Orientation.West 7 19]
        [Placement.mk Orientation.East 6 19,
      Placement.mk Orientation.West 6 19,
      Placement.mk Orientation.South 5 19,
      Placement.mk Orientation.North 0 19,
      Placement.mk Orientation.East 1 19,
      Placement.mk Orientation.West 1 19,
      Placement.mk Orientation.South 2 19,
      Placement.mk Orientation.East 7 19,
      Placement.mk Orientation.West 7 19] := by
      refine Eq.trans (bfsAux_succ_cons _ 23 _ _ _) ?_
      rw [e16]
      simp only [List.cons_append, List.nil_append]
    _ = bfsAux (airborneNeighbors cfgC1) 22 [Placement.mk Orientation.North 4 19,
      Placement.mk Orientation.North 3 19,
      Placement.mk Orientation.North 5 19,
      Placement.mk Orientation.East 4 19,
      Placement.mk Orientation.West 4 19,
      Placement.mk Orientation.North 2 19,
      Placement.mk Orientation.East 3 19,
      Placement.mk Orientation.West 3 19,
      Placement.mk Orientation.North 6 19,
      Placement.mk Orientation.East 5 19,
      Placement.mk Orientation.West 5 19,
      Placement.mk Orientation.South 4 19,
      Placement.mk Orientation.North 1 19,
      Placement.mk Orientation.East 2 19,
      Placement.mk Orientation.West 2 19,
      Placement.mk Orientation.South 3 19,
      Placement.mk Orientation.North 7 19,
      Placement.mk Orientation.East 6 19,
      Placement.mk Orientation.West 6 19,
      Placement.mk Orientation.South 5 19,
      Placement.mk Orientation.North 0 19,
      Placement.mk Orientation.East 1 19,
      Placement.mk Orientation.West 1 19,
      Placement.mk Orientation.South 2 19,
      Placement.mk Orientation.East 7 19,
      Placement.mk Orientation.West 7 19,
      Placement.mk Orientation.South 6 19]
        [Placement.mk Orientation.West 6 19,
      Placement.mk Orientation.South 5 19,
      Placement.mk Orientation.North 0 19,
      Placement.mk Orientation.East 1 19,
      Placement.mk Orientation.West 1 19,
      Placement.mk Orientation.South 2 19,
      Placement.mk Orientation.East 7 19,
      Placement.mk Orientation.West 7 19,
      Placement.mk Orientation.South 6 19] := by
      refine Eq.trans (bfsAux_succ_cons _ 22 _ _ _) ?_
      rw [e17]
      simp only [List.cons_append, List.nil_append]
    _ = bfsAux (airborneNeighbors cfgC1) 21 [Placement.mk Orientation.North 4 19,
      Placement.mk Orientation.North 3 19,
      Placement.mk Orientation.North 5 19,
      Placement.mk Orientation.East 4 19,
      Placement.mk Orientation.West 4 19,
      Placement.mk Orientation.North 2 19,
      Placement.mk Orientation.East 3 19,
      Placement.mk Orientation.West 3 19,
      Placement.mk Orientation.North 6 19,
      Placement.mk Orientation.East 5 19,
      Placement.mk Orientation.West 5 19,
      Placement.mk Orientation.South 4 19,
      Placement.mk Orientation.North 1 19,
      Placement.mk Orientation.East 2 19,
      Placement.mk Orientation.West 2 19,
      Placement.mk Orientation.South 3 19,
      Placement.mk Orientation.North 7 19,
      Placement.mk Orientation.East 6 19,
      Placement.mk Orientation.West 6 19,
      Placement.mk Orientation.South 5 19,
      Placement.mk Orientation.North 0 19,
      Placement.mk Orientation.East 1 19,
      Placement.mk Orientation.West 1 19,
      Placement.mk Orientation.South 2 19,
      Placement.mk Orientation.East 7 19,
      Placement.mk Orientation.West 7 19,
      Placement.mk Orientation.South 6 19]
        [Placement.mk Orientation.South 5 19,
      Placement.mk Orientation.North 0 19,
      Placement.mk Orientation.East 1 19,
      Placement.mk Orientation.West 1 19,
      Placement.mk Orientation.South 2 19,
      Placement.mk Orientation.East 7 19,
      Placement.mk Orientation.West 7 19,
      Placement.mk Orientation.South 6 19] := by
      refine Eq.trans (bfsAux_succ_cons _ 21 _ _ _) ?_
      rw [e18]
      simp only [List.cons_append, List.nil_append]
    _ = bfsAux (airborneNeighbors cfgC1) 20 [Placement.mk Orientation.North 4 19,
      Placement.mk Orientation.North 3 19,
      Placement.mk Orientation.North 5 19,
      Placement.mk Orientation.East 4 19,
      Placement.mk Orientation.West 4 19,
      Placement.mk Orientation.North 2 19,
      Placement.mk Orientation.East 3 19,
      Placement.mk Orientation.West 3 19,
      Placement.mk Orientation.North 6 19,
      Placement.mk Orientation.East 5 19,
      Placement.mk Orientation.West 5 19,
      Placement.mk Orientation.South 4 19,
      Placement.mk Orientation.North 1 19,
      Placement.mk Orientation.East 2 19,
      Placement.mk Orientation.West 2 19,
      Placement.mk Orientation.South 3 19,
      Placement.mk Orientation.North 7 19,
      Placement.mk Orientation.East 6 19,
      Placement.mk Orientation.West 6 19,
      Placement.mk Orientation.South 5 19,
      Placement.mk Orientation.North 0 19,
      Placement.mk Orientation.East 1 19,
      Placement.mk Orientation.West 1 19,
      Placement.mk Orientation.South 2 19,
      Placement.mk Orientation.East 7 19,
      Placement.mk Orientation.West 7 19,
      Placement.mk Orientation.South 6 19]
        [Placement.mk Orientation.North 0 19,
      Placement.mk Orientation.East 1 19,
      Placement.mk Orientation.West 1 19,
      Placement.mk Orientation.South 2 19,
      Placement.mk Orientation.East 7 19,
      Placement.mk Orientation.West 7 19,
      Placement.mk Orientation.South 6 19] := by
      refine Eq.trans (bfsAux_succ_cons _ 20 _ _ _) ?_
      rw [e19]
      simp only [List.cons_append, List.nil_append]
    _ = bfsAux (airborneNeighbors cfgC1) 19 [Placement.mk Orientation.North 4 19,
      Placement.mk Orientation.North 3 19,
      Placement.mk Orientation.North 5 19,
      Placement.mk Orientation.East 4 19,
      Placement.mk Orientation.West 4 19,
      Placement.mk Orientation.North 2 19,
      Placement.mk Orientation.East 3 19,
      Placement.mk Orientation.West 3 19,
      Placement.mk Orientation.North 6 19,
      Placement.mk Orientation.East 5 19,
      Placement.mk Orientation.West 5 19,
      Placement.mk Orientation.South 4 19,
      Placement.mk Orientation.North 1 19,
      Placement.mk Orientation.East 2 19,
      Placement.mk Orientation.West 2 19,
      Placement.mk Orientation.South 3 19,
      Placement.mk Orientation.North 7 19,
      Placement.mk Orientation.East 6 19,
      Placement.mk Orientation.West 6 19,
      Placement.mk Orientation.South 5 19,
      Placement.mk Orientation.North 0 19,
      Placement.mk Orientation.East 1 19,
      Placement.mk Orientation.West 1 19,
      Placement.mk Orientation.South 2 19,
      Placement.mk Orientation.East 7 19,
      Placement.mk Orientation.West 7 19,
      Placement.mk Orientation.South 6 19,
      Placement.mk Orientation.East 0 19,
      Placement.mk Orientation.West 0 19]
        [Placement.mk Orientation.East 1 19,
      Placement.mk Orientation.West 1 19,
      Placement.mk Orientation.South 2 19,
      Placement.mk Orientation.East 7 19,
      Placement.mk Orientation.West 7 19,
      Placement.mk Orientation.South 6 19,
      Placement.mk Orientation.East 0 19,
      Placement.mk Orientation.West 0 19] := by
      refine Eq.trans (bfsAux_succ_cons _ 19 _ _ _) ?_
      rw [e20]
      simp only [List.cons_append, List.nil_append]
    _ = bfsAux (airborneNeighbors cfgC1) 18 [Placement.mk Orientation.North 4 19,
      Placement.mk Orientation.North 3 19,
      Placement.mk Orientation.North 5 19,
      Placement.mk Orientation.East 4 19,
      Placement.mk Orientation.West 4 19,
      Placement.mk Orientation.North 2 19,
      Placement.mk Orientation.East 3 19,
      Placement.mk Orientation.West 3 19,
      Placement.mk Orientation.North 6 19,
      Placement.mk Orientation.East 5 19,
      Placement.mk Orientation.West 5 19,
      Placement.mk Orientation.South 4 19,
      Placement.mk Orientation.North 1 19,
      Placement.mk Orientation.East 2 19,
      Placement.mk Orientation.West 2 19,
      Placement.mk Orientation.South 3 19,
      Placement.mk Orientation.North 7 19,
      Placement.mk Orientation.East 6 19,
      Placement.mk Orientation.West 6 19,
      Placement.mk Orientation.South 5 19,
      Placement.mk Orientation.North 0 19,
      Placement.mk Orientation.East 1 19,
      Placement.mk Orientation.West 1 19,
      Placement.mk Orientation.South 2 19,
      Placement.mk Orientation.East 7 19,
      Placement.mk Orientation.West 7 19,
      Placement.mk Orientation.South 6 19,
      Placement.mk Orientation.East 0 19,
      Placement.mk Orientation.West 0 19,
      Placement.mk Orientation.South 1 19]
        [Placement.mk Orientation.West 1 19,
      Placement.mk Orientation.South 2 19,
      Placement.mk Orientation.East 7 19,
      Placement.mk Orientation.West 7 19,
      Placement.mk Orientation.South 6 19,
      Placement.mk Orientation.East 0 19,
      Placement.mk Orientation.West 0 19,
      Placement.mk Orientation.South 1 19] := by
      refine Eq.trans (bfsAux_succ_cons _ 18 _ _ _) ?_
      rw [e21]
      simp only [List.cons_append, List.nil_append]
    _ = bfsAux (airborneNeighbors cfgC1) 17 [Placement.mk Orientation.North 4 19,
      Placement.mk Orientation.North 3 19,
      Placement.mk Orientation.North 5 19,
      Placement.mk Orientation.East 4 19,
      Placement.mk Orientation.West 4 19,
      Placement.mk Orientation.North 2 19,
      Placement.mk Orientation.East 3 19,
      Placement.mk Orientation.West 3 19,
      Placement.mk Orientation.North 6 19,
      Placement.mk Orientation.East 5 19,
      Placement.mk Orientation.West 5 19,
      Placement.mk Orientation.South 4 19,
      Placement.mk Orientation.North 1 19,
      Placement.mk Orientation.East 2 19,
      Placement.mk Orientation.West 2 19,
      Placement.mk Orientation.South 3 19,
      Placement.mk Orientation.North 7 19,
      Placement.mk Orientation.East 6 19,
      Placement.mk Orientation.West 6 19,
      Placement.mk Orientation.South 5 19,
      Placement.mk Orientation.North 0 19,
      Placement.mk Orientation.East 1 19,
      Placement.mk Orientation.West 1 19,
      Placement.mk Orientation.South 2 19,
      Placement.mk Orientation.East 7 19,
      Placement.mk Orientation.West 7 19,
      Placement.mk Orientation.South 6 19,
      Placement.mk Orientation.East 0 19,
      Placement.mk Orientation.West 0 19,
      Placement.mk Orientation.South 1 19]
        [Placement.mk Orientation.South 2 19,
      Placement.mk Orientation.East 7 19,
      Placement.mk Orientation.West 7 19,
      Placement.mk Orientation.South 6 19,
      Placement.mk Orientation.East 0 19,
      Placement.mk Orientation.West 0 19,
      Placement.mk Orientation.South 1 19] := by
      refine Eq.trans (bfsAux_succ_cons _ 17 _ _ _) ?_
      rw [e22]
      simp only [List.cons_append, List.nil_append]
    _ = bfsAux (airborneNeighbors cfgC1) 16 [Placement.mk Orientation.North 4 19,
      Placement.mk Orientation.North 3 19,
      Placement.mk Orientation.North 5 19,
      Placement.mk Orientation.East 4 19,
      Placement.mk Orientation.West 4 19,
      Placement.mk Orientation.North 2 19,
      Placement.mk Orientation.East 3 19,
      Placement.mk Orientation.West 3 19,
      Placement.mk Orientation.North 6 19,
      Placement.mk Orientation.East 5 19,
      Placement.mk Orientation.West 5 19,
      Placement.mk Orientation.South 4 19,
      Placement.mk Orientation.North 1 19,
      Placement.mk Orientation.East 2 19,
      Placement.mk Orientation.West 2 19,
      Placement.mk Orientation.South 3 19,
      Placement.mk Orientation.North 7 19,
      Placement.mk Orientation.East 6 19,
      Placement.mk Orientation.West 6 19,
      Placement.mk Orientation.South 5 19,
      Placement.mk Orientation.North 0 19,
      Placement.mk Orientation.East 1 19,
      Placement.mk Orientation.West 1 19,
      Placement.mk Orientation.South 2 19,
      Placement.mk Orientation.East 7 19,
      Placement.mk Orientation.West 7 19,
      Placement.mk Orientation.South 6 19,
      Placement.mk Orientation.East 0 19,
      Placement.mk Orientation.West 0 19,
      Placement.mk Orientation.South 1 19]
        [Placement.mk Orientation.East 7 19,
      Placement.mk Orientation.West 7 19,
      Placement.mk Orientation.South 6 19,
      Placement.mk Orientation.East 0 19,
      Placement.mk Orientation.West 0 19,
      Placement.mk Orientation.South 1 19] := by
      refine Eq.trans (bfsAux_succ_cons _ 16 _ _ _) ?_
      rw [e23]
      simp only [List.cons_append, List.nil_append]
    _ = bfsAux (airborneNeighbors cfgC1) 15 [Placement.mk Orientation.North 4 19,
      Placement.mk Orientation.North 3 19,
      Placement.mk Orientation.North 5 19,
      Placement.mk Orientation.East 4 19,
      Placement.mk Orientation.West 4 19,
      Placement.mk Orientation.North 2 19,
      Placement.mk Orientation.East 3 19,
      Placement.mk Orientation.West 3 19,
      Placement.mk Orientation.North 6 19,
      Placement.mk Orientation.East 5 19,
      Placement.mk Orientation.West 5 19,
      Placement.mk Orientation.South 4 19,
      Placement.mk Orientation.North 1 19,
      Placement.mk Orientation.East 2 19,
      Placement.mk Orientation.West 2 19,
      Placement.mk Orientation.South 3 19,
      Placement.mk Orientation.North 7 19,
      Placement.mk Orientation.East 6 19,
      Placement.mk Orientation.West 6 19,
      Placement.mk Orientation.South 5 19,
      Placement.mk Orientation.North 0 19,
      Placement.mk Orientation.East 1 19,
      Placement.mk Orientation.West 1 19,
      Placement.mk Orientation.South 2 19,
      Placement.mk Orientation.East 7 19,
      Placement.mk Orientation.West 7 19,
      Placement.mk Orientation.South 6 19,
      Placement.mk Orientation.East 0 19,
      Placement.mk Orientation.West 0 19,
      Placement.mk Orientation.South 1 19,
      Placement.mk Orientation.South 7 19]
        [Placement.mk Orientation.West 7 19,
      Placement.mk Orientation.South 6 19,
      Placement.mk Orientation.East 0 19,
      Placement.mk Orientation.West 0 19,
      Placement.mk Orientation.South 1 19,
      Placement.mk Orientation.South 7 19] := by
      refine Eq.trans (bfsAux_succ_cons _ 15 _ _ _) ?_
      rw [e24]
      simp only [List.cons_append, List.nil_append]
    _ = bfsAux (airborneNeighbors cfgC1) 14 [Placement.mk Orientation.North 4 19,
      Placement.mk Orientation.North 3 19,
      Placement.mk Orientation.North 5 19,
      Placement.mk Orientation.East 4 19,
      Placement.mk Orientation.West 4 19,
      Placement.mk Orientation.North 2 19,
      Placement.mk Orientation.East 3 19,
      Placement.mk Orientation.West 3 19,
      Placement.mk Orientation.North 6 19,
      Placement.mk Orientation.East 5 19,
      Placement.mk Orientation.West 5 19,
      Placement.mk Orientation.South 4 19,
      Placement.mk Orientation.North 1 19,
      Placement.mk Orientation.East 2 19,
      Placement.mk Orientation.West 2 19,
      Placement.mk Orientation.South 3 19,
      Placement.mk Orientation.North 7 19,
      Placement.mk Orientation.East 6 19,
      Placement.mk Orientation.West 6 19,
      Placement.mk Orientation.South 5 19,
      Placement.mk Orientation.North 0 19,
      Placement.mk Orientation.East 1 19,
      Placement.mk Orientation.West 1 19,
      Placement.mk Orientation.South 2 19,
      Placement.mk Orientation.East 7 19,
      Placement.mk Orientation.West 7 19,
      Placement.mk Orientation.South 6 19,
      Placement.mk Orientation.East 0 19,
      Placement.mk Orientation.West 0 19,
      Placement.mk Orientation.South 1 19,
      Placement.mk Orientation.South 7 19,
      Placement.mk Orientation.West 8 19]
        [Placement.mk Orientation.South 6 19,
      Placement.mk Orientation.East 0 19,
      Placement.mk Orientation.West 0 19,
      Placement.mk Orientation.South 1 19,
      Placement.mk Orientation.South 7 19,
      Placement.mk Orientation.West 8 19] := by
      refine Eq.trans (bfsAux_succ_cons _ 14 _ _ _) ?_
      rw [e25]
      simp only [List.cons_append, List.nil_append]
    _ = bfsAux (airborneNeighbors cfgC1) 13 [Placement.mk Orientation.North 4 19,
      Placement.mk Orientation.North 3 19,
      Placement.mk Orientation.North 5 19,
      Placement.mk Orientation.East 4 19,
      Placement.mk Orientation.West 4 19,
      Placement.mk Orientation.North 2 19,
      Placement.mk Orientation.East 3 19,
      Placement.mk Orientation.West 3 19,
      Placement.mk Orientation.North 6 19,
      Placement.mk Orientation.East 5 19,
      Placement.mk Orientation.West 5 19,
      Placement.mk Orientation.South 4 19,
      Placement.mk Orientation.North 1 19,
      Placement.mk Orientation.East 2 19,
      Placement.mk Orientation.West 2 19,
      Placement.mk Orientation.South 3 19,
      Placement.mk Orientation.North 7 19,
      Placement.mk Orientation.East 6 19,
      Placement.mk Orientation.West 6 19,
      Placement.mk Orientation.South 5 19,
      Placement.mk Orientation.North 0 19,
      Placement.mk Orientation.East 1 19,
      Placement.mk Orientation.West 1 19,
      Placement.mk Orientation.South 2 19,
      Placement.mk Orientation.East 7 19,
      Placement.mk Orientation.West 7 19,
      Placement.mk Orientation.South 6 19,
      Placement.mk Orientation.East 0 19,
      Placement.mk Orientation.West 0 19,
      Placement.mk Orientation.South 1 19,
      Placement.mk Orientation.South 7 19,
      Placement.mk Orientation.West 8 19]
        [Placement.mk Orientation.East 0 19,
      Placement.mk Orientation.West 0 19,
      Placement.mk Orientation.South 1 19,
      Placement.mk Orientation.South 7 19,
      Placement.mk Orientation.West 8 19] := by
      refine Eq.trans (bfsAux_succ_cons _ 13 _ _ _) ?_
      rw [e26]
      simp only [List.cons_append, List.nil_append]
    _ = bfsAux (airborneNeighbors cfgC1) 12 [Placement.mk Orientation.North 4 19,
      Placement.mk Orientation.North 3 19,
      Placement.mk Orientation.North 5 19,
      Placement.mk Orientation.East 4 19,
      Placement.mk Orientation.West 4 19,
      Placement.mk Orientation.North 2 19,
      Placement.mk Orientation.East 3 19,
      Placement.mk Orientation.West 3 19,
      Placement.mk Orientation.North 6 19,
      Placement.mk Orientation.East 5 19,
      Placement.mk Orientation.West 5 19,
      Placement.mk Orientation.South 4 19,
      Placement.mk Orientation.North 1 19,
      Placement.mk Orientation.East 2 19,
      Placement.mk Orientation.West 2 19,
      Placement.mk Orientation.South 3 19,
      Placement.mk Orientation.North 7 19,
      Placement.mk Orientation.East 6 19,
      Placement.mk Orientation.West 6 19,
      Placement.mk Orientation.South 5 19,
      Placement.mk Orientation.North 0 19,
      Placement.mk Orientation.East 1 19,
      Placement.mk Orientation.West 1 19,
      Placement.mk Orientation.South 2 19,
      Placement.mk Orientation.East 7 19,
      Placement.mk Orientation.West 7 19,
      Placement.mk Orientation.South 6 19,
      Placement.mk Orientation.East 0 19,
      Placement.mk Orientation.West 0 19,
      Placement.mk Orientation.South 1 19,
      Placement.mk Orientation.South 7 19,
      Placement.mk Orientation.West 8 19,
      Placement.mk Orientation.East (-1) 19,
      Placement.mk Orientation.South 0 19]
        [Placement.mk Orientation.West 0 19,
      Placement.mk Orientation.South 1 19,
      Placement.mk Orientation.South 7 19,
      Placement.mk Orientation.West 8 19,
      Placement.mk Orientation.East (-1) 19,
      Placement.mk Orientation.South 0 19] := by
      refine Eq.trans (bfsAux_succ_cons _ 12 _ _ _) ?_
      rw [e27]
      simp only [List.cons_append, List.nil_append]
    _ = bfsAux (airborneNeighbors cfgC1) 11 [Placement.mk Orientation.North 4 19,
      Placement.mk Orientation.North 3 19,
      Placement.mk Orientation.North 5 19,
      Placement.mk Orientation.East 4 19,
      Placement.mk Orientation.West 4 19,
      Placement.mk Orientation.North 2 19,
      Placement.mk Orientation.East 3 19,
      Placement.mk Orientation.West 3 19,
      Placement.mk Orientation.North 6 19,
      Placement.mk Orientation.East 5 19,
      Placement.mk Orientation.West 5 19,
      Placement.mk Orientation.South 4 19,
      Placement.mk Orientation.North 1 19,
      Placement.mk Orientation.East 2 19,
      Placement.mk Orientation.West 2 19,
      Placement.mk Orientation.South 3 19,
      Placement.mk Orientation.North 7 19,
      Placement.mk Orientation.East 6 19,
      Placement.mk Orientation.West 6 19,
      Placement.mk Orientation.South 5 19,
      Placement.mk Orientation.North 0 19,
      Placement.mk Orientation.East 1 19,
      Placement.mk Orientation.West 1 19,
      Placement.mk Orientation.South 2 19,
      Placement.mk Orientation.East 7 19,
      Placement.mk Orientation.West 7 19,
      Placement.mk Orientation.South 6 19,
      Placement.mk Orientation.East 0 19,
      Placement.mk Orientation.West 0 19,
      Placement.mk Orientation.South 1 19,
      Placement.mk Orientation.South 7 19,
      Placement.mk Orientation.West 8 19,
      Placement.mk Orientation.East (-1) 19,
      Placement.mk Orientation.South 0 19]
        [Placement.mk Orientation.South 1 19,
      Placement.mk Orientation.South 7 19,
      Placement.mk Orientation.West 8 19,
      Placement.mk Orientation.East (-1) 19,
      Placement.mk Orientation.South 0 19] := by
      refine Eq.trans (bfsAux_succ_cons _ 11 _ _ _) ?_
      rw [e28]
      simp only [List.cons_append, List.nil_append]
    _ = bfsAux (airborneNeighbors cfgC1) 10 [Placement.mk Orientation.North 4 19,
      Placement.mk Orientation.North 3 19,
      Placement.mk Orientation.North 5 19,
      Placement.mk Orientation.East 4 19,
      Placement.mk Orientation.West 4 19,
      Placement.mk Orientation.North 2 19,
      Placement.mk Orientation.East 3 19,
      Placement.mk Orientation.West 3 19,
      Placement.mk Orientation.North 6 19,
      Placement.mk Orientation.East 5 19,
      Placement.mk Orientation.West 5 19,
      Placement.mk Orientation.South 4 19,
      Placement.mk Orientation.North 1 19,
      Placement.mk Orientation.East 2 19,
      Placement.mk Orientation.West 2 19,
      Placement.mk Orientation.South 3 19,
      Placement.mk Orientation.North 7 19,
      Placement.mk Orientation.East 6 19,
      Placement.mk Orientation.West 6 19,
      Placement.mk Orientation.South 5 19,
      Placement.mk Orientation.North 0 19,
      Placement.mk Orientation.East 1 19,
      Placement.mk Orientation.West 1 19,
      Placement.mk Orientation.South 2 19,
      Placement.mk Orientation.East 7 19,
      Placement.mk Orientation.West 7 19,
      Placement.mk Orientation.South 6 19,
      Placement.mk Orientation.East 0 19,
      Placement.mk Orientation.West 0 19,
      Placement.mk Orientation.South 1 19,
      Placement.mk Orientation.South 7 19,
      Placement.mk Orientation.West 8 19,
      Placement.mk Orientation.East (-1) 19,
      Placement.mk Orientation.South 0 19]
        [Placement.mk Orientation.South 7 19,
      Placement.mk Orientation.West 8 19,
      Placement.mk Orientation.East (-1) 19,
      Placement.mk Orientation.South 0 19] := by
      refine Eq.trans (bfsAux_succ_cons _ 10 _ _ _) ?_
      rw [e29]
      simp only [List.cons_append, List.nil_append]
    _ = bfsAux (airborneNeighbors cfgC1) 9 [Placement.mk Orientation.North 4 19,
      Placement.mk Orientation.North 3 19,
      Placement.mk Orientation.North 5 19,
      Placement.mk Orientation.East 4 19,
      Placement.mk Orientation.West 4 19,
      Placement.mk Orientation.North 2 19,
      Placement.mk Orientation.East 3 19,
      Placement.mk Orientation.West 3 19,
      Placement.mk Orientation.North 6 19,
      Placement.mk Orientation.East 5 19,
      Placement.mk Orientation.West 5 19,
      Placement.mk Orientation.South 4 19,
      Placement.mk Orientation.North 1 19,
      Placement.mk Orientation.East 2 19,
      Placement.mk Orientation.West 2 19,
      Placement.mk Orientation.South 3 19,
      Placement.mk Orientation.North 7 19,
      Placement.mk Orientation.East 6 19,
      Placement.mk Orientation.West 6 19,
      Placement.mk Orientation.South 5 19,
      Placement.mk Orientation.North 0 19,
      Placement.mk Orientation.East 1 19,
      Placement.mk Orientation.West 1 19,
      Placement.mk Orientation.South 2 19,
      Placement.mk Orientation.East 7 19,
      Placement.mk Orientation.West 7 19,
      Placement.mk Orientation.South 6 19,
      Placement.mk Orientation.East 0 19,
      Placement.mk Orientation.West 0 19,
      Placement.mk Orientation.South 1 19,
      Placement.mk Orientation.South 7 19,
      Placement.mk Orientation.West 8 19,
      Placement.mk Orientation.East (-1) 19,
      Placement.mk Orientation.South 0 19]
        [Placement.mk Orientation.West 8 19,
      Placement.mk Orientation.East (-1) 19,
      Placement.mk Orientation.South 0 19] := by
      refine Eq.trans (bfsAux_succ_cons _ 9 _ _ _) ?_
      rw [e30]
      simp only [List.cons_append, List.nil_append]
    _ = bfsAux (airborneNeighbors cfgC1) 8 [Placement.mk Orientation.North 4 19,
      Placement.mk Orientation.North 3 19,
      Placement.mk Orientation.North 5 19,
      Placement.mk Orientation.East 4 19,
      Placement.mk Orientation.West 4 19,
      Placement.mk Orientation.North 2 19,
      Placement.mk Orientation.East 3 19,
      Placement.mk Orientation.West 3 19,
      Placement.mk Orientation.North 6 19,
      Placement.mk Orientation.East 5 19,
      Placement.mk Orientation.West 5 19,
      Placement.mk Orientation.South 4 19,
      Placement.mk Orientation.North 1 19,
      Placement.mk Orientation.East 2 19,
      Placement.mk Orientation.West 2 19,
      Placement.mk Orientation.South 3 19,
      Placement.mk Orientation.North 7 19,
      Placement.mk Orientation.East 6 19,
      Placement.mk Orientation.West 6 19,
      Placement.mk Orientation.South 5 19,
      Placement.mk Orientation.North 0 19,
      Placement.mk Orientation.East 1 19,
      Placement.mk Orientation.West 1 19,
      Placement.mk Orientation.South 2 19,
      Placement.mk Orientation.East 7 19,
      Placement.mk Orientation.West 7 19,
      Placement.mk Orientation.South 6 19,
      Placement.mk Orientation.East 0 19,
      Placement.mk Orientation.West 0 19,
      Placement.mk Orientation.South 1 19,
      Placement.mk Orientation.South 7 19,
      Placement.mk Orientation.West 8 19,
      Placement.mk Orientation.East (-1) 19,
      Placement.mk Orientation.South 0 19]
        [Placement.mk Orientation.East (-1) 19,
      Placement.mk Orientation.South 0 19] := by
      refine Eq.trans (bfsAux_succ_cons _ 8 _ _ _) ?_
      rw [e31]
      simp only [List.cons_append, List.nil_append]
    _ = bfsAux (airborneNeighbors cfgC1) 7 [Placement.mk Orientation.North 4 19,
      Placement.mk Orientation.North 3 19,
      Placement.mk Orientation.North 5 19,
      Placement.mk Orientation.East 4 19,
      Placement.mk Orientation.West 4 19,
      Placement.mk Orientation.North 2 19,
      Placement.mk Orientation.East 3 19,
      Placement.mk Orientation.West 3 19,
      Placement.mk Orientation.North 6 19,
      Placement.mk Orientation.East 5 19,
      Placement.mk Orientation.West 5 19,
      Placement.mk Orientation.South 4 19,
      Placement.mk Orientation.North 1 19,
      Placement.mk Orientation.East 2 19,
      Placement.mk Orientation.West 2 19,
      Placement.mk Orientation.South 3 19,
      Placement.mk Orientation.North 7 19,
      Placement.mk Orientation.East 6 19,
      Placement.mk Orientation.West 6 19,
      Placement.mk Orientation.South 5 19,
      Placement.mk Orientation.North 0 19,
      Placement.mk Orientation.East 1 19,
      Placement.mk Orientation.West 1 19,
      Placement.mk Orientation.South 2 19,
      Placement.mk Orientation.East 7 19,
      Placement.mk Orientation.West 7 19,
      Placement.mk Orientation.South 6 19,
      Placement.mk Orientation.East 0 19,
      Placement.mk Orientation.West 0 19,
      Placement.mk Orientation.South 1 19,
      Placement.mk Orientation.South 7 19,
      Placement.mk Orientation.West 8 19,
      Placement.mk Orientation.East (-1) 19,
      Placement.mk Orientation.South 0 19]
        [Placement.mk Orientation.South 0 19] := by
      refine Eq.trans (bfsAux_succ_cons _ 7 _ _ _) ?_
      rw [e32]
      simp only [List.cons_append, List.nil_append]
    _ = bfsAux (airborneNeighbors cfgC1) 6 [Placement.mk Orientation.North 4 19,
      Placement.mk Orientation.North 3 19,
      Placement.mk Orientation.North 5 19,
      Placement.mk Orientation.East 4 19,
      Placement.mk Orientation.West 4 19,
      Placement.mk Orientation.North 2 19,
      Placement.mk Orientation.East 3 19,
      Placement.mk Orientation.West 3 19,
      Placement.mk Orientation.North 6 19,
      Placement.mk Orientation.East 5 19,
      Placement.mk Orientation.West 5 19,
      Placement.mk Orientation.South 4 19,
      Placement.mk Orientation.North 1 19,
      Placement.mk Orientation.East 2 19,
      Placement.mk Orientation.West 2 19,
      Placement.mk Orientation.South 3 19,
      Placement.mk Orientation.North 7 19,
      Placement.mk Orientation.East 6 19,
      Placement.mk Orientation.West 6 19,
      Placement.mk Orientation.South 5 19,
      Placement.mk Orientation.North 0 19,
      Placement.mk Orientation.East 1 19,
      Placement.mk Orientation.West 1 19,
      Placement.mk Orientation.South 2 19,
      Placement.mk Orientation.East 7 19,
      Placement.mk Orientation.West 7 19,
      Placement.mk Orientation.South 6 19,
      Placement.mk Orientation.East 0 19,
      Placement.mk Orientation.West 0 19,
      Placement.mk Orientation.South 1 19,
      Placement.mk Orientation.South 7 19,
      Placement.mk Orientation.West 8 19,
      Placement.mk Orientation.East (-1) 19,
      Placement.mk Orientation.South 0 19]
        [] := by
      refine Eq.trans (bfsAux_succ_cons _ 6 _ _ _) ?_
      rw [e33]
      simp only [List.cons_append, List.nil_append]
    _ = some [Placement.mk Orientation.North 4 19,
      Placement.mk Orientation.North 3 19,
      Placement.mk Orientation.North 5 19,
      Placement.mk Orientation.East 4 19,
      Placement.mk Orientation.West 4 19,
      Placement.mk Orientation.North 2 19,
      Placement.mk Orientation.East 3 19,
      Placement.mk Orientation.West 3 19,
      Placement.mk Orientation.North 6 19,
      Placement.mk Orientation.East 5 19,
      Placement.mk Orientation.West 5 19,
      Placement.mk Orientation.South 4 19,
      Placement.mk Orientation.North 1 19,
      Placement.mk Orientation.East 2 19,
      Placement.mk Orientation.West 2 19,
      Placement.mk Orientation.South 3 19,
      Placement.mk Orientation.North 7 19,
      Placement.mk Orientation.East 6 19,
      Placement.mk Orientation.West 6 19,
      Placement.mk Orientation.South 5 19,
      Placement.mk Orientation.North 0 19,
      Placement.mk Orientation.East 1 19,
      Placement.mk Orientation.West 1 19,
      Placement.mk Orientation.South 2 19,
      Placement.mk Orientation.East 7 19,
      Placement.mk Orientation.West 7 19,
      Placement.mk Orientation.South 6 19,
      Placement.mk Orientation.East 0 19,
      Placement.mk Orientation.West 0 19,
      Placement.mk Orientation.South 1 19,
      Placement.mk Orientation.South 7 19,
      Placement.mk Orientation.West 8 19,
      Placement.mk Orientation.East (-1) 19,
      Placement.mk Orientation.South 0 19] := bfsAux_nil _ _ _

theorem hardDropC1_run :
    ([Placement.mk Orientation.North 4 19,
      Placement.mk Orientation.North 3 19,
      Placement.mk Orientation.North 5 19,
      Placement.mk Orientation.East 4 19,
      Placement.mk Orientation.West 4 19,
      Placement.mk Orientation.North 2 19,
      Placement.mk Orientation.East 3 19,
      Placement.mk Orientation.West 3 19,
      Placement.mk Orientation.North 6 19,
      Placement.mk Orientation.East 5 19,
      Placement.mk Orientation.West 5 19,
      Placement.mk Orientation.South 4 19,
      Placement.mk Orientation.North 1 19,
      Placement.mk Orientation.East 2 19,
      Placement.mk Orientation.West 2 19,
      Placement.mk Orientation.South 3 19,
      Placement.mk Orientation.North 7 19,
      Placement.mk Orientation.East 6 19,
      Placement.mk Orientation.West 6 19,
      Placement.mk Orientation.South 5 19,
      Placement.mk Orientation.North 0 19,
      Placement.mk Orientation.East 1 19,
      Placement.mk Orientation.West 1 19,
      Placement.mk Orientation.South 2 19,
      Placement.mk Orientation.East 7 19,
      Placement.mk Orientation.West 7 19,
      Placement.mk Orientation.South 6 19,
      Placement.mk Orientation.East 0 19,
      Placement.mk Orientation.West 0 19,
      Placement.mk Orientation.South 1 19,
      Placement.mk Orientation.South 7 19,
      Placement.mk Orientation.West 8 19,
      Placement.mk Orientation.East (-1) 19,
      Placement.mk Orientation.South 0 19] : List Placement).map (hardDrop cfgC1) =
      [Placement.mk Orientation.North 4 3,
      Placement.mk Orientation.North 3 3,
      Placement.mk Orientation.North 5 3,
      Placement.mk Orientation.East 4 4,
      Placement.mk Orientation.West 4 4,
      Placement.mk Orientation.North 2 3,
      Placement.mk Orientation.East 3 4,
      Placement.mk Orientation.West 3 4,
      Placement.mk Orientation.North 6 3,
      Placement.mk Orientation.East 5 4,
      Placement.mk Orientation.West 5 4,
      Placement.mk Orientation.South 4 4,
      Placement.mk Orientation.North 1 3,
      Placement.mk Orientation.East 2 4,
      Placement.mk Orientation.West 2 4,
      Placement.mk Orientation.South 3 4,
      Placement.mk Orientation.North 7 3,
      Placement.mk Orientation.East 6 3,
      Placement.mk Orientation.West 6 4,
      Placement.mk Orientation.South 5 4,
      Placement.mk Orientation.North 0 2,
      Placement.mk Orientation.East 1 4,
      Placement.mk Orientation.West 1 4,
      Placement.mk Orientation.South 2 4,
      Placement.mk Orientation.East 7 0,
      Placement.mk Orientation.West 7 3,
      Placement.mk Orientation.South 6 4,
      Placement.mk Orientation.East 0 4,
      Placement.mk Orientation.West 0 0,
      Placement.mk Orientation.South 1 4,
      Placement.mk Orientation.South 7 4,
      Placement.mk Orientation.West 8 0,
      Placement.mk Orientation.East (-1) 0,
      Placement.mk Orientation.South 0 3] := by decide

theorem collectC1_run :
    collectDistinct [] [Placement.mk Orientation.North 4 3,
      Placement.mk Orientation.North 3 3,
      Placement.mk Orientation.North 5 3,
      Placement.mk Orientation.East 4 4,
      Placement.mk Orientation.West 4 4,
      Placement.mk Orientation.North 2 3,
      Placement.mk Orientation.East 3 4,
      Placement.mk Orientation.West 3 4,
      Placement.mk Orientation.North 6 3,
      Placement.mk Orientation.East 5 4,
      Placement.mk Orientation.West 5 4,
      Placement.mk Orientation.South 4 4,
      Placement.mk Orientation.North 1 3,
      Placement.mk Orientation.East 2 4,
      Placement.mk Orientation.West 2 4,
      Placement.mk Orientation.South 3 4,
      Placement.mk Orientation.North 7 3,
      Placement.mk Orientation.East 6 3,
      Placement.mk Orientation.West 6 4,
      Placement.mk Orientation.South 5 4,
      Placement.mk Orientation.North 0 2,
      Placement.mk Orientation.East 1 4,
      Placement.mk Orientation.West 1 4,
      Placement.mk Orientation.South 2 4,
      Placement.mk Orientation.East 7 0,
      Placement.mk Orientation.West 7 3,
      Placement.mk Orientation.South 6 4,
      Placement.mk Orientation.East 0 4,
      Placement.mk Orientation.West 0 0,
      Placement.mk Orientation.South 1 4,
      Placement.mk Orientation.South 7 4,
      Placement.mk Orientation.West 8 0,
      Placement.mk Orientation.East (-1) 0,
      Placement.mk Orientation.South 0 3] =
      [Placement.mk Orientation.North 4 3,
      Placement.mk Orientation.North 3 3,
      Placement.mk Orientation.North 5 3,
      Placement.mk Orientation.East 4 4,
      Placement.mk Orientation.West 4 4,
      Placement.mk Orientation.North 2 3,
      Placement.mk Orientation.East 3 4,
      Placement.mk Orientation.West 3 4,
      Placement.mk Orientation.North 6 3,
      Placement.mk Orientation.East 5 4,
      Placement.mk Orientation.West 5 4,
      Placement.mk Orientation.South 4 4,
      Placement.mk Orientation.North 1 3,
      Placement.mk Orientation.East 2 4,
      Placement.mk Orientation.West 2 4,
      Placement.mk Orientation.South 3 4,
      Placement.mk Orientation.North 7 3,
      Placement.mk Orientation.East 6 3,
      Placement.mk Orientation.West 6 4,
      Placement.mk Orientation.South 5 4,
      Placement.mk Orientation.North 0 2,
      Placement.mk Orientation.East 1 4,
      Placement.mk Orientation.West 1 4,
      Placement.mk Orientation.South 2 4,
      Placement.mk Orientation.East 7 0,
      Placement.mk Orientation.West 7 3,
      Placement.mk Orientation.South 6 4,
      Placement.mk Orientation.East 0 4,
      Placement.mk Orientation.West 0 0,
      Placement.mk Orientation.South 1 4,
      Placement.mk Orientation.South 7 4,
      Placement.mk Orientation.West 8 0,
      Placement.mk Orientation.East (-1) 0,
      Placement.mk Orientation.South 0 3] := by decide

theorem spawnC1_canPlace : canPlace cfgC1 spawnC1 = true := by decide

theorem allC1_run :
    (MoveRules.srs Drop.Harddrop).generate_all_moves boardC1 sShape spawnC1 40 =
      some [Placement.mk Orientation.North 4 3,
      Placement.mk Orientation.North 3 3,
      Placement.mk Orientation.North 5 3,
      Placement.mk Orientation.East 4 4,
      Placement.mk Orientation.West 4 4,
      Placement.mk Orientation.North 2 3,
      Placement.mk Orientation.East 3 4,
      Placement.mk Orientation.West 3 4,
      Placement.mk Orientation.North 6 3,
      Placement.mk Orientation.East 5 4,
      Placement.mk Orientation.West 5 4,
      Placement.mk Orientation.South 4 4,
      Placement.mk Orientation.North 1 3,
      Placement.mk Orientation.East 2 4,
      Placement.mk Orientation.West 2 4,
      Placement.mk Orientation.South 3 4,
      Placement.mk Orientation.North 7 3,
      Placement.mk Orientation.East 6 3,
      Placement.mk Orientation.West 6 4,
      Placement.mk Orientation.South 5 4,
      Placement.mk Orientation.North 0 2,
      Placement.mk Orientation.East 1 4,
      Placement.mk Orientation.West 1 4,
      Placement.mk Orientation.South 2 4,
      Placement.mk Orientation.East 7 0,
      Placement.mk Orientation.West 7 3,
      Placement.mk Orientation.South 6 4,
      Placement.mk Orientation.East 0 4,
      Placement.mk Orientation.West 0 0,
      Placement.mk Orientation.South 1 4,
      Placement.mk Orientation.South 7 4,
      Placement.mk Orientation.West 8 0,
      Placement.mk Orientation.East (-1) 0,
      Placement.mk Orientation.South 0 3] := by
  show all_moves_harddrop cfgC1 spawnC1 40 = _
  unfold all_moves_harddrop
  rw [if_pos spawnC1_canPlace, bfsC1_run]
  simp only [Option.map_some']
  rw [hardDropC1_run, collectC1_run]

theorem minimizedC1_run :
    minimizedFrom cfgC1 [] [Placement.mk Orientation.North 4 3,
      Placement.mk Orientation.North 3 3,
      Placement.mk Orientation.North 5 3,
      Placement.mk Orientation.East 4 4,
      Placement.mk Orientation.West 4 4,
      Placement.mk Orientation.North 2 3,
      Placement.mk Orientation.East 3 4,
      Placement.mk Orientation.West 3 4,
      Placement.mk Orientation.North 6 3,
      Placement.mk Orientation.East 5 4,
      Placement.mk Orientation.West 5 4,
      Placement.mk Orientation.South 4 4,
      Placement.mk Orientation.North 1 3,
      Placement.mk Orientation.East 2 4,
      Placement.mk Orientation.West 2 4,
      Placement.mk Orientation.South 3 4,
      Placement.mk Orientation.North 7 3,
      Placement.mk Orientation.East 6 3,
      Placement.mk Orientation.West 6 4,
      Placement.mk Orientation.South 5 4,
      Placement.mk Orientation.North 0 2,
      Placement.mk Orientation.East 1 4,
      Placement.mk Orientation.West 1 4,
      Placement.mk Orientation.South 2 4,
      Placement.mk Orientation.East 7 0,
      Placement.mk Orientation.West 7 3,
      Placement.mk Orientation.South 6 4,
      Placement.mk Orientation.East 0 4,
      Placement.mk Orientation.West 0 0,
      Placement.mk Orientation.South 1 4,
      Placement.mk Orientation.South 7 4,
      Placement.mk Orientation.West 8 0,
      Placement.mk Orientation.East (-1) 0,
      Placement.mk Orientation.South 0 3] =
      [Placement.mk Orientation.North 4 3,
      Placement.mk Orientation.North 3 3,
      Placement.mk Orientation.North 5 3,
      Placement.mk Orientation.East 4 4,
      Placement.mk Orientation.West 4 4,
      Placement.mk Orientation.North 2 3,
      Placement.mk Orientation.West 3 4,
      Placement.mk Orientation.North 6 3,
      Placement.mk Orientation.East 5 4,
      Placement.mk Orientation.North 1 3,
      Placement.mk Orientation.West 2 4,
      Placement.mk Orientation.North 7 3,
      Placement.mk Orientation.East 6 3,
      Placement.mk Orientation.North 0 2,
      Placement.mk Orientation.West 1 4,
      Placement.mk Orientation.East 7 0,
      Placement.mk Orientation.West 0 0] := by decide


/-- C1: in the reference scenario (ten-wide board whose top listed row is
filled except the two leftmost and two rightmost columns, S piece spawned in
north orientation at bottom-left (4, 20), SRS rotation system, Harddrop
discipline), `generate_all_moves` returns exactly 34 distinct
(orientation, x, y) placements of which exactly 4 rest with bottom row 0, and
`generate_minimized_moves` returns exactly 17 distinct placements of which
exactly 2 rest with bottom row 0. -/
theorem C1_reference_scenario :
    (((MoveRules.srs Drop.Harddrop).generate_all_moves boardC1 sShape spawnC1 40).map
        fun l => (l.length, decide l.Nodup,
          (l.filter fun p => decide (blY cfgC1 p = 0)).length))
      = some (34, true, 4) ∧
    (((MoveRules.srs Drop.Harddrop).generate_minimized_moves boardC1 sShape spawnC1 40).map
        fun l => (l.length, decide l.Nodup,
          (l.filter fun p => decide (blY cfgC1 p = 0)).length))
      = some (17, true, 2) := by
  constructor
  · rw [allC1_run]
    simp only [Option.map_some']
    decide
  · rw [generate_minimized_eq, allC1_run]
    simp only [Option.map_some']
    have hcfg : mkConfig boardC1 sShape (MoveRules.srs Drop.Harddrop).rotation_system = cfgC1 :=
      rfl
    rw [hcfg, minimizedC1_run]
    decide

/-- C2: every placement returned by `generate_minimized_moves` occurs
literally in the list returned by `generate_all_moves` on the same inputs; the
minimized list is at most as long, with equality exactly when no two all-moves
placements occupy the same absolute cell set. -/
theorem C2_minimized_subset (rules : MoveRules) (board : Board)
    (shape : Orientation → List (Int × Int)) (spawn : Placement) (fuel : Nat)
    (A M : List Placement)
    (hA : rules.generate_all_moves board shape spawn fuel = some A)
    (hM : rules.generate_minimized_moves board shape spawn fuel = some M) :
    (∀ p, p ∈ M → p ∈ A) ∧ M.length ≤ A.length ∧
      (M.length = A.length ↔
        List.Pairwise
          (fun p q =>
            sameFootprint (mkConfig board shape rules.rotation_system) p q = false) A) := by
  rw [generate_minimized_eq, hA] at hM
  simp only [Option.map_some', Option.some.injEq] at hM
  subst hM
  refine ⟨?_, ?_, ?_⟩
  · intro p hp
    rcases mem_minimizedFrom A [] p hp with h | h
    · cases h
    · exact h
  · have := @minimizedFrom_length_le (mkConfig board shape rules.rotation_system) A []
    simpa using this
  · exact minimizedFrom_length_eq_iff A

/-- Witness for C2 at the tiny scenario (one-cell piece, kickless rotation
system, Softdrop): the first minimized placement occurs in the all-moves list,
the lengths agree, and indeed no two all-moves placements share a footprint. -/
theorem C2_minimized_subset_witness :
    (Placement.mk Orientation.North 0 0) ∈
      ([Placement.mk Orientation.North 0 0, Placement.mk Orientation.North 1 0] :
        List Placement) ∧
    ([Placement.mk Orientation.North 0 0, Placement.mk Orientation.North 1 0] :
        List Placement).length ≤
      ([Placement.mk Orientation.North 0 0, Placement.mk Orientation.North 1 0] :
        List Placement).length ∧
    (([Placement.mk Orientation.North 0 0, Placement.mk Orientation.North 1 0] :
        List Placement).length =
      ([Placement.mk Orientation.North 0 0, Placement.mk Orientation.North 1 0] :
        List Placement).length ↔
      List.Pairwise
        (fun p q => sameFootprint (mkConfig boardT shapeT rsT) p q = false)
        [Placement.mk Orientation.North 0 0, Placement.mk Orientation.North 1 0]) := by
  have h := C2_minimized_subset (MoveRules.new rsT Drop.Softdrop) boardT shapeT spawnT 40
    [Placement.mk Orientation.North 0 0, Placement.mk Orientation.North 1 0]
    [Placement.mk Orientation.North 0 0, Placement.mk Orientation.North 1 0]
    (by decide) (by decide)
  exact ⟨h.1 _ (by decide), h.2.1, h.2.2⟩

/-- C3, counterexample: on a fully occupied board the spawn collides (a
contract violation), yet both generators return a plain empty list — the very
value the claim says must be distinguishable from the error signal — for both
disciplines.  There is no distinct error channel. -/
theorem C3_counterexample :
    canPlace (mkConfig boardFull shapeT rsT) spawnT = false ∧
    (MoveRules.new rsT Drop.Harddrop).generate_all_moves boardFull shapeT spawnT 40
      = some [] ∧
    (MoveRules.new rsT Drop.Harddrop).generate_minimized_moves boardFull shapeT spawnT 40
      = some [] ∧
    (MoveRules.new rsT Drop.Softdrop).generate_all_moves boardFull shapeT spawnT 40
      = some [] ∧
    (MoveRules.new rsT Drop.Softdrop).generate_minimized_moves boardFull shapeT spawnT 40
      = some [] := by
  refine ⟨?_, ?_, ?_, ?_, ?_⟩ <;> decide

/-- C3, amended: a colliding spawn makes `generate_all_moves` return the empty
list — the same channel as any other result, not a distinct signal — while for
a collision-free spawn a completed search never returns the empty list (the
piece always rests somewhere), so an empty result does imply the precondition
was violated. -/
theorem C3_empty_means_violation (rules : MoveRules) (board : Board)
    (shape : Orientation → List (Int × Int)) (spawn : Placement) (fuel : Nat)
    (A : List Placement) (hne : ∀ o, shape o ≠ [])
    (hA : rules.generate_all_moves board shape spawn fuel = some A) :
    (canPlace (mkConfig board shape rules.rotation_system) spawn = false → A = []) ∧
    (canPlace (mkConfig board shape rules.rotation_system) spawn = true → A ≠ []) := by
  rcases rules with ⟨rs, d⟩
  constructor
  · intro hs
    cases d
    · simp only [MoveRules.generate_all_moves] at hA
      unfold all_moves_softdrop at hA
      rw [hs] at hA
      simpa using hA.symm
    · simp only [MoveRules.generate_all_moves] at hA
      unfold all_moves_harddrop at hA
      rw [hs] at hA
      simpa using hA.symm
  · intro hs
    cases d
    · simp only [MoveRules.generate_all_moves] at hA
      have hdown : canPlace (mkConfig board shape rs) (downN (mkConfig board shape rs).height spawn) = false :=
        canPlace_downN_height (hne spawn.orientation) hs
      rcases descend_to_terminal (mkConfig board shape rs).height spawn hs hdown with
        ⟨r, hr1, hr2, hr3⟩
      exact List.ne_nil_of_mem (all_moves_softdrop_complete hs hA r hr1 hr3)
    · simp only [MoveRules.generate_all_moves] at hA
      exact List.ne_nil_of_mem
        (all_moves_harddrop_complete hs hA spawn (ReachableBy.refl spawn))

/-- Witness for the amended C3 at the tiny scenario: with a valid spawn the
result list is nonempty, and the violation branch is vacuously available. -/
theorem C3_empty_means_violation_witness :
    (canPlace (mkConfig boardT shapeT rsT) spawnT = false →
      ([Placement.mk Orientation.North 0 0, Placement.mk Orientation.North 1 0] :
        List Placement) = []) ∧
    (canPlace (mkConfig boardT shapeT rsT) spawnT = true →
      ([Placement.mk Orientation.North 0 0, Placement.mk Orientation.North 1 0] :
        List Placement) ≠ []) :=
  C3_empty_means_violation (MoveRules.new rsT Drop.Softdrop) boardT shapeT spawnT 40
    [Placement.mk Orientation.North 0 0, Placement.mk Orientation.North 1 0]
    (fun o => by simp [shapeT]) (by decide)

/-- C4: for every board, collision-free spawn, rotation system and drop
discipline, every placement returned by `generate_all_moves` is collision-free
and becomes colliding (or leaves the field) when translated one cell downward:
it truly rests. -/
theorem C4_terminality (rules : MoveRules) (board : Board)
    (shape : Orientation → List (Int × Int)) (spawn : Placement) (fuel : Nat)
    (A : List Placement) (hne : ∀ o, shape o ≠ [])
    (hs : canPlace (mkConfig board shape rules.rotation_system) spawn = true)
    (hA : rules.generate_all_moves board shape spawn fuel = some A) :
    ∀ p, p ∈ A → canPlace (mkConfig board shape rules.rotation_system) p = true ∧
      canPlace (mkConfig board shape rules.rotation_system) (down p) = false := by
  rcases rules with ⟨rs, d⟩
  cases d
  · simp only [MoveRules.generate_all_moves] at hA
    intro p hp
    have h := all_moves_softdrop_spec hs hA p hp
    exact ⟨h.1, h.2.1⟩
  · simp only [MoveRules.generate_all_moves] at hA
    intro p hp
    rcases all_moves_harddrop_spec hs hA p hp with ⟨q, _, hq2, rfl⟩
    exact ⟨hardDrop_canPlace hq2, hardDrop_term (hne q.orientation) hq2⟩

/-- Witness for C4 at the tiny Harddrop scenario: the first returned placement
is collision-free and cannot descend. -/
theorem C4_terminality_witness :
    canPlace (mkConfig boardT shapeT rsT) (Placement.mk Orientation.North 0 0) = true ∧
    canPlace (mkConfig boardT shapeT rsT) (down (Placement.mk Orientation.North 0 0)) = false :=
  C4_terminality (MoveRules.new rsT Drop.Harddrop) boardT shapeT spawnT 40
    [Placement.mk Orientation.North 0 0, Placement.mk Orientation.North 1 0]
    (fun o => by simp [shapeT]) (by decide) (by decide)
    (Placement.mk Orientation.North 0 0) (by decide)

/-- C5: for every board, collision-free spawn and rotation system, every
placement returned by `generate_all_moves` under Harddrop also occurs in the
list returned under Softdrop on the same inputs. -/
theorem C5_harddrop_subset_softdrop (rs : Orientation → Rotation → List (Int × Int))
    (board : Board) (shape : Orientation → List (Int × Int)) (spawn : Placement)
    (fuelH fuelS : Nat) (A B : List Placement) (hne : ∀ o, shape o ≠ [])
    (hs : canPlace (mkConfig board shape rs) spawn = true)
    (hA : (MoveRules.new rs Drop.Harddrop).generate_all_moves board shape spawn fuelH
      = some A)
    (hB : (MoveRules.new rs Drop.Softdrop).generate_all_moves board shape spawn fuelS
      = some B) :
    ∀ p, p ∈ A → p ∈ B := by
  simp only [MoveRules.generate_all_moves, MoveRules.new] at hA hB
  intro p hp
  rcases all_moves_harddrop_spec hs hA p hp with ⟨q, hq1, hq2, rfl⟩
  have hreach : ReachableBy (softdropNeighbors (mkConfig board shape rs)) spawn
      (hardDrop (mkConfig board shape rs) q) :=
    ReachableBy.trans (ReachableBy.mono (fun u x hx => airborne_sub_soft hx) hq1)
      (hardDropAux_reach (mkConfig board shape rs).height q)
  exact all_moves_softdrop_complete hs hB _ hreach
    (hardDrop_term (hne q.orientation) hq2)

/-- Witness for C5 at the tiny scenario: a Harddrop result occurs in the
Softdrop result. -/
theorem C5_harddrop_subset_softdrop_witness :
    (Placement.mk Orientation.North 0 0) ∈
      ([Placement.mk Orientation.North 0 0, Placement.mk Orientation.North 1 0] :
        List Placement) :=
  C5_harddrop_subset_softdrop rsT boardT shapeT spawnT 40 40
    [Placement.mk Orientation.North 0 0, Placement.mk Orientation.North 1 0]
    [Placement.mk Orientation.North 0 0, Placement.mk Orientation.North 1 0]
    (fun o => by simp [shapeT]) (by decide) (by decide) (by decide)
    (Placement.mk Orientation.North 0 0) (by decide)

/-- C6: `generate_all_moves` is a function of its inputs alone — two calls on
equal rules, board, piece catalog, spawn and fuel return the identical list
(same placements in the same order, hence the same multiset). -/
theorem C6_deterministic (r1 r2 : MoveRules) (b1 b2 : Board)
    (s1 s2 : Orientation → List (Int × Int)) (p1 p2 : Placement) (f1 f2 : Nat)
    (hr : r1 = r2) (hb : b1 = b2) (hs : s1 = s2) (hp : p1 = p2) (hf : f1 = f2) :
    r1.generate_all_moves b1 s1 p1 f1 = r2.generate_all_moves b2 s2 p2 f2 := by
  subst hr
  subst hb
  subst hs
  subst hp
  subst hf
  rfl

/-- Witness for C6: two repeated calls on the reference inputs agree. -/
theorem C6_deterministic_witness :
    (MoveRules.srs Drop.Harddrop).generate_all_moves boardT shapeT spawnT 40 =
      (MoveRules.srs Drop.Harddrop).generate_all_moves boardT shapeT spawnT 40 :=
  C6_deterministic (MoveRules.srs Drop.Harddrop) (MoveRules.srs Drop.Harddrop)
    boardT boardT shapeT shapeT spawnT spawnT 40 40 rfl rfl rfl rfl rfl

/-- C7: every representative emitted by `generate_minimized_moves` is itself a
member of the all-moves (terminal) list, and it is the first placement of that
list — the explorer's discovery order — whose footprint matches its own
footprint class. -/
theorem C7_representative_first (rules : MoveRules) (board : Board)
    (shape : Orientation → List (Int × Int)) (spawn : Placement) (fuel : Nat)
    (A M : List Placement)
    (hA : rules.generate_all_moves board shape spawn fuel = some A)
    (hM : rules.generate_minimized_moves board shape spawn fuel = some M) :
    ∀ p, p ∈ M → p ∈ A ∧
      (A.find? fun q =>
        sameFootprint (mkConfig board shape rules.rotation_system) q p) = some p := by
  rw [generate_minimized_eq, hA] at hM
  simp only [Option.map_some', Option.some.injEq] at hM
  subst hM
  intro p hp
  exact minimizedFrom_find hp

/-- Witness for C7 at the tiny scenario: the representative is in the terminal
list and is its own footprint class's first element. -/
theorem C7_representative_first_witness :
    (Placement.mk Orientation.North 0 0) ∈
      ([Placement.mk Orientation.North 0 0, Placement.mk Orientation.North 1 0] :
        List Placement) ∧
    (([Placement.mk Orientation.North 0 0, Placement.mk Orientation.North 1 0] :
        List Placement).find? fun q =>
      sameFootprint (mkConfig boardT shapeT rsT) q (Placement.mk Orientation.North 0 0))
      = some (Placement.mk Orientation.North 0 0) :=
  C7_representative_first (MoveRules.new rsT Drop.Softdrop) boardT shapeT spawnT 40
    [Placement.mk Orientation.North 0 0, Placement.mk Orientation.North 1 0]
    [Placement.mk Orientation.North 0 0, Placement.mk Orientation.North 1 0]
    (by decide) (by decide) (Placement.mk Orientation.North 0 0) (by decide)

/-- C8: every placement returned by `generate_all_moves` is connected to the
spawn placement by a finite sequence of valid atomic edges of the active
discipline — shifts, kick-resolved rotations and one-cell soft drops under
Softdrop; shifts and rotations followed by one final hard drop under
Harddrop. -/
theorem C8_reachability (rules : MoveRules) (board : Board)
    (shape : Orientation → List (Int × Int)) (spawn : Placement) (fuel : Nat)
    (A : List Placement)
    (hs : canPlace (mkConfig board shape rules.rotation_system) spawn = true)
    (hA : rules.generate_all_moves board shape spawn fuel = some A) :
    ∀ p, p ∈ A → reachableResult rules board shape spawn p := by
  rcases rules with ⟨rs, d⟩
  cases d
  · simp only [MoveRules.generate_all_moves] at hA
    intro p hp
    exact (all_moves_softdrop_spec hs hA p hp).2.2
  · simp only [MoveRules.generate_all_moves] at hA
    intro p hp
    rcases all_moves_harddrop_spec hs hA p hp with ⟨q, h1, h2, h3⟩
    exact ⟨q, h1, h2, h3⟩

/-- Witness for C8 at the tiny Softdrop scenario: a returned placement is
reachable from spawn along soft-drop-discipline edges. -/
theorem C8_reachability_witness :
    reachableResult (MoveRules.new rsT Drop.Softdrop) boardT shapeT spawnT
      (Placement.mk Orientation.North 0 0) :=
  C8_reachability (MoveRules.new rsT Drop.Softdrop) boardT shapeT spawnT 40
    [Placement.mk Orientation.North 0 0, Placement.mk Orientation.North 1 0]
    (by decide) (by decide) (Placement.mk Orientation.North 0 0) (by decide)

/-- C9: the inherent `MoveRules::default` builds exactly
`MoveRules::srs(Drop::Softdrop)`, and the `#[default]` variant of `Drop` is
`Softdrop`. -/
theorem C9_default_rules :
    MoveRules.default = MoveRules.srs Drop.Softdrop ∧ (default : Drop) = Drop.Softdrop :=
  ⟨rfl, rfl⟩

/-- C10: generating moves takes the rules by shared reference and leaves them
unchanged: after either call the `rotation_system` and `drop` fields equal
their values before it, for every board, piece catalog, spawn and fuel. -/
theorem C10_rules_unchanged (rules : MoveRules) (board : Board)
    (shape : Orientation → List (Int × Int)) (spawn : Placement) (fuel : Nat) :
    ((rules.generate_all_moves_call board shape spawn fuel).2.rotation_system
        = rules.rotation_system ∧
      (rules.generate_all_moves_call board shape spawn fuel).2.drop = rules.drop) ∧
    ((rules.generate_minimized_moves_call board shape spawn fuel).2.rotation_system
        = rules.rotation_system ∧
      (rules.generate_minimized_moves_call board shape spawn fuel).2.drop = rules.drop) :=
  ⟨⟨rfl, rfl⟩, ⟨rfl, rfl⟩⟩

end Bitris
